import Mathlib

/-!
Verification development for the Instagram profile scraper (`src/main.js`,
first revision, the one the repository ships).  The JavaScript is embedded
shallowly: JS strings are Lean `String`s, nullable values are `Option`s,
JS count numbers are `JsCount` (an integer or NaN), and the cheerio
document is a `Page` record holding exactly the projections the script
reads (title text, body text, raw body HTML, h2 text, og meta tags, the
parsed `window._sharedData` user, the parsed JSON-LD person, and the
post anchors).  Regular-expression matching used by the extraction
strategies is implemented concretely over character lists, following the
leftmost-match / greedy semantics of the JS regexes involved.
-/

/-- Truthiness of a JS string-or-nullish value: `undefined`, `null` and
the empty string are falsy. -/
def jsTruthyStr : Option String → Bool
  | some s => s ≠ ""
  | none => false

/-- The JS `a || b` operator on nullable strings. -/
def jsOrStr (a b : Option String) : Option String :=
  if jsTruthyStr a then a else b

/-- The JS `a || b` operator where `a` is a nullable boolean (used for
`user.is_verified || data.isVerified`). -/
def jsOrBool (a : Option Bool) (b : Bool) : Bool :=
  match a with
  | some true => true
  | _ => b

/-- A JS number holding a profile count: either NaN or an integer.  All
count-producing paths in the script (`Math.round`, `parseInt`) yield
integers or NaN, never a fractional number. -/
inductive JsCount where
  | nan : JsCount
  | num (n : Int) : JsCount
deriving DecidableEq, Repr

/-- Truthiness of a nullable count: `null`, `undefined`, `NaN` and `0`
are falsy. -/
def jsTruthyCount : Option JsCount → Bool
  | some (.num n) => n ≠ 0
  | _ => false

/-- The JS `a || b` operator on nullable counts. -/
def jsOrCount (a b : Option JsCount) : Option JsCount :=
  if jsTruthyCount a then a else b

/-- Substring test on character lists (used to model
`String.prototype.includes` and the cheerio `[attr*=...]` selectors). -/
def listIsInfixOf (needle : List Char) : List Char → Bool
  | [] => needle.isEmpty
  | c :: t => needle.isPrefixOf (c :: t) || listIsInfixOf needle t

/-- JS `haystack.includes(needle)`. -/
def jsIncludes (haystack needle : String) : Bool :=
  listIsInfixOf needle.toList haystack.toList

/-- JS `String.prototype.trim` on a character list. -/
def jsTrimChars (cs : List Char) : List Char :=
  ((cs.dropWhile Char.isWhitespace).reverse.dropWhile Char.isWhitespace).reverse

/-- JS `s.replace('@', '')`: removes the first occurrence of `'@'`. -/
def removeFirstAt : List Char → List Char
  | [] => []
  | c :: rest => if c = '@' then rest else c :: removeFirstAt rest

/-- Digits of a decimal numeral, most significant first, as a natural. -/
def digitsToNat (ds : List Char) : Nat :=
  ds.foldl (fun acc c => acc * 10 + (c.toNat - '0'.toNat)) 0

/-- Exact value of a parsed decimal numeral `intPart.fracDigits`, kept as
integer data: the value is `intPart + fracNum / 10 ^ fracLen`. -/
structure Decimal where
  intPart : Nat
  fracNum : Nat
  fracLen : Nat
deriving DecidableEq, Repr

/-- JS `parseFloat` restricted to the inputs the script feeds it (the
`[\d.]+` capture of the count regex): an optional integer part, an
optional dot, an optional fractional part, ignoring anything after;
NaN (`none`) when no digit is consumed.  Exact decimal arithmetic stands
in for binary floating point; sign and exponent syntax never occur at
the call site. -/
def jsParseFloatChars (cs : List Char) : Option Decimal :=
  let ip := cs.takeWhile Char.isDigit
  let r1 := cs.dropWhile Char.isDigit
  match r1 with
  | '.' :: r2 =>
    let fp := r2.takeWhile Char.isDigit
    if ip = [] ∧ fp = [] then none
    else some ⟨digitsToNat ip, digitsToNat fp, fp.length⟩
  | _ =>
    if ip = [] then none else some ⟨digitsToNat ip, 0, 0⟩

/-- JS `Math.round(number * mult)` for a parsed nonnegative decimal and a
natural multiplier: halves round up (toward positive infinity), computed
exactly as `⌊(value * mult) + 1/2⌋` in integer arithmetic. -/
def jsRoundMul (d : Decimal) (mult : Nat) : Nat :=
  let a := (d.intPart * 10 ^ d.fracLen + d.fracNum) * mult
  let b := 10 ^ d.fracLen
  (2 * a + b) / (2 * b)

/-- JS `parseInt` with radix auto-detection: optional sign, then either a
`0x`/`0X` hexadecimal numeral or a decimal digit prefix; NaN (`none`)
when no digit is consumed.  Leading whitespace is skipped. -/
def jsParseIntChars (cs : List Char) : Option Int :=
  let cs := cs.dropWhile Char.isWhitespace
  let (neg, cs) :=
    match cs with
    | '-' :: rest => (true, rest)
    | '+' :: rest => (false, rest)
    | _ => (false, cs)
  let body : Option Nat :=
    match cs with
    | '0' :: 'x' :: rest =>
      let hs := rest.takeWhile (fun c => c.isDigit ∨ ('a' ≤ c ∧ c ≤ 'f') ∨ ('A' ≤ c ∧ c ≤ 'F'))
      if hs = [] then none
      else some (hs.foldl (fun acc c =>
        acc * 16 + (if c.isDigit then c.toNat - '0'.toNat
                    else if 'a' ≤ c ∧ c ≤ 'f' then c.toNat - 'a'.toNat + 10
                    else c.toNat - 'A'.toNat + 10)) 0)
    | '0' :: 'X' :: rest =>
      let hs := rest.takeWhile (fun c => c.isDigit ∨ ('a' ≤ c ∧ c ≤ 'f') ∨ ('A' ≤ c ∧ c ≤ 'F'))
      if hs = [] then none
      else some (hs.foldl (fun acc c =>
        acc * 16 + (if c.isDigit then c.toNat - '0'.toNat
                    else if 'a' ≤ c ∧ c ≤ 'f' then c.toNat - 'a'.toNat + 10
                    else c.toNat - 'A'.toNat + 10)) 0)
    | _ =>
      let ds := cs.takeWhile Char.isDigit
      if ds = [] then none else some (digitsToNat ds)
  body.map (fun n => if neg then -(n : Int) else (n : Int))

/-- The `countStr.toString().replace(/[,\s]/g, '').toLowerCase()` step of
`parseInstagramCount`. -/
def cleanCountStr (s : String) : List Char :=
  (s.toList.filter (fun c => ¬(c = ',' ∨ c.isWhitespace))).map Char.toLower

/-- The anchored regex `^([\d.]+)([kmb]?)$` of `parseInstagramCount` on
the cleaned, lowercased characters: returns the numeric body and the
optional multiplier suffix. -/
def matchCountRegex (cs : List Char) : Option (List Char × Option Char) :=
  match cs.getLast? with
  | some c =>
    if c = 'k' ∨ c = 'm' ∨ c = 'b' then
      let body := cs.dropLast
      if body ≠ [] ∧ body.all (fun d => d.isDigit ∨ d = '.') then some (body, some c)
      else none
    else
      if cs.all (fun d => d.isDigit ∨ d = '.') then some (cs, none) else none
  | none => none

/-- The `parseInt(cleanStr) || null` fallback of `parseInstagramCount`:
NaN and 0 are falsy and collapse to `null`. -/
def parseIntOrNull (cs : List Char) : Option JsCount :=
  match jsParseIntChars cs with
  | none => none
  | some 0 => none
  | some n => some (.num n)

/-- Embedding of `parseInstagramCount` (src/main.js lines 527-544): clean
the string, match `^([\d.]+)([kmb]?)$`, scale by the K/M/B multiplier and
round; fall back to `parseInt(cleanStr) || null` when the regex fails. -/
def parseInstagramCount (countStr : String) : Option JsCount :=
  if countStr = "" then none
  else
    let cleanStr := cleanCountStr countStr
    match matchCountRegex cleanStr with
    | none => parseIntOrNull cleanStr
    | some (numberStr, multiplier) =>
      match jsParseFloatChars numberStr with
      | none => some .nan
      | some number =>
        match multiplier with
        | some 'k' => some (.num (jsRoundMul number 1000))
        | some 'm' => some (.num (jsRoundMul number 1000000))
        | some 'b' => some (.num (jsRoundMul number 1000000000))
        | _ => some (.num (jsRoundMul number 1))

example : parseInstagramCount "1,234" = some (.num 1234) := by decide
example : parseInstagramCount "1.5K" = some (.num 1500) := by decide
example : parseInstagramCount "2M" = some (.num 2000000) := by decide
example : parseInstagramCount "0" = some (.num 0) := by decide
example : parseInstagramCount "..." = some .nan := by decide
example : parseInstagramCount "abc" = none := by decide
example : parseInstagramCount "12abc" = some (.num 12) := by decide
example : parseInstagramCount "1.2.3" = some (.num 1) := by decide

/-- Characters the JS regex `.` does not match (no `s` flag). -/
def nonNL (c : Char) : Bool := c ≠ '\n' ∧ c ≠ '\r'

/-- Whitespace skipping, modelling a greedy `\s*`. -/
def skipWs (cs : List Char) : List Char := cs.dropWhile Char.isWhitespace

/-- Drop a trailing whitespace run (the `\s*` prefix of a removed regex
match, which greedily extends left from the matched literal). -/
def stripTrailingWs (cs : List Char) : List Char :=
  (cs.reverse.dropWhile Char.isWhitespace).reverse

/-- Case-insensitive prefix match of a literal word (given in lowercase):
returns the remaining characters on success. -/
def matchWordCI : List Char → List Char → Option (List Char)
  | [], cs => some cs
  | _ :: _, [] => none
  | w :: ws, c :: cs => if c.toLower = w then matchWordCI ws cs else none

/-- Consume the optional trailing `s?` of `followers?` / `posts?`
(case-insensitive). -/
def eatOptS : List Char → List Char
  | [] => []
  | c :: r => if c.toLower = 's' then r else c :: r

/-- Multiplier suffix class `[KMB]` under the `i` flag. -/
def isKMB (c : Char) : Bool := c.toLower = 'k' ∨ c.toLower = 'm' ∨ c.toLower = 'b'

/-- Separator-digit groups `(?:,\d+)*` (or `(?:[,\.]\d+)*` for the body
text patterns), consumed greedily; the fuel argument bounds the
recursion by the input length. -/
def numGroupsAux (isSep : Char → Bool) : Nat → List Char → (List Char × List Char)
  | 0, cs => ([], cs)
  | _ + 1, [] => ([], [])
  | fuel + 1, s :: rest =>
    if isSep s then
      let d := rest.takeWhile Char.isDigit
      if d = [] then ([], s :: rest)
      else
        let pr := numGroupsAux isSep fuel (rest.dropWhile Char.isDigit)
        (s :: (d ++ pr.1), pr.2)
    else ([], s :: rest)

/-- Greedy match of the count numeral `\d+(?:SEP\d+)*[KMB]?` at the head
of the input; returns the capture and the rest.  Greedy (maximal-munch)
matching agrees with the backtracking regex here because no continuation
of these patterns can start with a separator, a digit or a multiplier
letter. -/
def matchNum (isSep : Char → Bool) (cs : List Char) : Option (List Char × List Char) :=
  let d := cs.takeWhile Char.isDigit
  if d = [] then none
  else
    let r := cs.dropWhile Char.isDigit
    let pr := numGroupsAux isSep r.length r
    match pr.2 with
    | c :: rest => if isKMB c then some (d ++ pr.1 ++ [c], rest) else some (d ++ pr.1, c :: rest)
    | [] => some (d ++ pr.1, [])

/-- Separators of the og-description numerals (`,` only). -/
def sepComma (c : Char) : Bool := c = ','

/-- Separators of the body-text numerals (`,` or `.`). -/
def sepCommaDot (c : Char) : Bool := c = ',' ∨ c = '.'

/-- Match, at the current position, the common core of the two
og-description stat patterns:
`(\d+(?:,\d+)*[KMB]?)\s*Followers?,\s*(\d+(?:,\d+)*[KMB]?)\s*Following,\s*(\d+(?:,\d+)*[KMB]?)\s*Posts?`
(case-insensitive).  Returns the three captures and the rest of the
input after `Posts?`. -/
def matchStatsTripleAt (cs : List Char) : Option (List Char × List Char × List Char × List Char) :=
  match matchNum sepComma cs with
  | none => none
  | some (c1, r1) =>
    match matchWordCI "follower".toList (skipWs r1) with
    | none => none
    | some r2 =>
      match eatOptS r2 with
      | ',' :: r4 =>
        match matchNum sepComma (skipWs r4) with
        | none => none
        | some (c2, r5) =>
          match matchWordCI "following".toList (skipWs r5) with
          | none => none
          | some r6 =>
            match r6 with
            | ',' :: r7 =>
              match matchNum sepComma (skipWs r7) with
              | none => none
              | some (c3, r8) =>
                match matchWordCI "post".toList (skipWs r8) with
                | none => none
                | some r9 => some (c1, c2, c3, eatOptS r9)
            | _ => none
      | _ => none

/-- Continuation `\s*-\s*(.+)` of the first og-description pattern: after
the dash, backtracking of the greedy `\s*` succeeds exactly when the
whitespace run holds a non-newline character or something follows it. -/
def dashBioTail (cs : List Char) : Bool :=
  match skipWs cs with
  | '-' :: r2 =>
    (r2.dropWhile Char.isWhitespace ≠ []) ∨ ((r2.takeWhile Char.isWhitespace).any (fun c => nonNL c))
  | _ => false

/-- Leftmost match of og-description pattern 1 (`... Posts? - bio`). -/
def scanStatsA : List Char → Option (List Char × List Char × List Char)
  | [] => none
  | c :: rest =>
    match matchStatsTripleAt (c :: rest) with
    | some (a, b, d, r) => if dashBioTail r then some (a, b, d) else scanStatsA rest
    | none => scanStatsA rest

/-- Leftmost match of og-description pattern 2 (no trailing bio). -/
def scanStatsB : List Char → Option (List Char × List Char × List Char)
  | [] => none
  | c :: rest =>
    match matchStatsTripleAt (c :: rest) with
    | some (a, b, d, _) => some (a, b, d)
    | none => scanStatsB rest

/-- The og-description strategy tries pattern 1 then pattern 2, breaking
at the first match (the `match.length >= 4 && match[1] && match[2] &&
match[3]` guard always holds on a match because each capture starts with
a digit). -/
def ogDescriptionStats (desc : String) : Option (List Char × List Char × List Char) :=
  match scanStatsA desc.toList with
  | some t => some t
  | none => scanStatsB desc.toList

/-- Leftmost match of a body-text pattern of the form
`(\d+(?:[,\.]\d+)*[KMB]?)\s*word s?` (case-insensitive); the trailing
optional `s?` never affects matchability.  Returns the capture. -/
def scanNumWord (word : List Char) : List Char → Option (List Char)
  | [] => none
  | c :: rest =>
    match matchNum sepCommaDot (c :: rest) with
    | some (cap, r) =>
      match matchWordCI word (skipWs r) with
      | some _ => some cap
      | none => scanNumWord word rest
    | none => scanNumWord word rest

/-- Leftmost match of a body-text pattern of the form
`word s?\s*(\d+(?:[,\.]\d+)*[KMB]?)` (case-insensitive); `withS` selects
whether the word carries the optional `s?`.  Returns the capture. -/
def scanWordNum (word : List Char) (withS : Bool) : List Char → Option (List Char)
  | [] => none
  | c :: rest =>
    match matchWordCI word (c :: rest) with
    | some r =>
      match matchNum sepCommaDot (skipWs (if withS then eatOptS r else r)) with
      | some (cap, _) => some cap
      | none => scanWordNum word withS rest
    | none => scanWordNum word withS rest

example : scanStatsB "5 Followers, 3 Following, 2 Posts".toList
    = some ("5".toList, "3".toList, "2".toList) := by decide
example : scanStatsA "5 Followers, 3 Following, 2 Posts".toList = none := by decide
example : scanStatsA "1,234 Followers, 56 Following, 7 Posts - Jane".toList
    = some ("1,234".toList, "56".toList, "7".toList) := by decide
example : scanNumWord "follower".toList "about 1.5K followers here".toList
    = some "1.5K".toList := by decide
example : scanWordNum "follower".toList true "followers 42".toList = some "42".toList := by decide
example : scanNumWord "follower".toList "no stats".toList = none := by decide

/-- Leftmost capture of the og-title pattern `\(@([^)]+)\)`: scans for
`(@`, takes the non-`)` run after it, and requires it nonempty and
closed by `)`; otherwise the scan resumes one character further. -/
def scanParenAt : List Char → Option (List Char)
  | [] => none
  | '(' :: '@' :: rest =>
    let cap := rest.takeWhile (fun c => c ≠ ')')
    let r := rest.dropWhile (fun c => c ≠ ')')
    if cap ≠ [] ∧ r ≠ [] then some cap else scanParenAt ('@' :: rest)
  | _ :: rest => scanParenAt rest

/-- Anchored capture of the og-title pattern `^([^(•]+)`. -/
def matchLeadCapture (cs : List Char) : Option (List Char) :=
  let cap := cs.takeWhile (fun c => c ≠ '(' ∧ c ≠ '•')
  if cap = [] then none else some cap

/-- The username patterns of strategy 2 applied to `og:title`, with the
first matching pattern winning, followed by `.trim().replace('@', '')`
on the capture (src/main.js lines 245-258). -/
def usernameFromTitle (ogTitle : String) : Option String :=
  match scanParenAt ogTitle.toList with
  | some cap => some ((removeFirstAt (jsTrimChars cap)).asString)
  | none =>
    match matchLeadCapture ogTitle.toList with
    | some cap => some ((removeFirstAt (jsTrimChars cap)).asString)
    | none => none

/-- Prefix kept by `replace(/\s*•.*$/, '')`: everything before the first
`•` whose tail holds no newline, with the whitespace run preceding that
`•` stripped (greedy leftmost `\s*`). -/
def findBulletPrefix : List Char → Option (List Char)
  | [] => none
  | c :: rest =>
    if c = '•' ∧ rest.all nonNL then some []
    else (findBulletPrefix rest).map (fun pre => c :: pre)

/-- JS `cleanName.replace(/\s*•.*$/, '')`. -/
def replaceBulletTail (cs : List Char) : List Char :=
  match findBulletPrefix cs with
  | some pre => stripTrailingWs pre
  | none => cs

/-- Split at the first occurrence of `\(@[^)]+\)`: returns the part
before the `(` and the part after the closing `)`. -/
def findParenSplit : List Char → Option (List Char × List Char)
  | [] => none
  | '(' :: '@' :: rest =>
    let cap := rest.takeWhile (fun c => c ≠ ')')
    let r := rest.dropWhile (fun c => c ≠ ')')
    if cap ≠ [] ∧ r ≠ [] then some ([], r.tail)
    else (findParenSplit ('@' :: rest)).map (fun pr => ('(' :: pr.1, pr.2))
  | c :: rest => (findParenSplit rest).map (fun pr => (c :: pr.1, pr.2))

/-- JS `cleanName.replace(/\s*\(@[^)]+\)/, '')`. -/
def replaceParenGroup (cs : List Char) : List Char :=
  match findParenSplit cs with
  | some pr => stripTrailingWs pr.1 ++ pr.2
  | none => cs

/-- Prefix kept by `replace(/\s*LITERAL.*$/, '')` for a literal pattern:
everything before the first occurrence of the literal whose tail holds
no newline, with the preceding whitespace run stripped. -/
def findLiteralPrefix (pat : List Char) : List Char → Option (List Char)
  | [] => none
  | c :: rest =>
    if pat.isPrefixOf (c :: rest) ∧ ((c :: rest).drop pat.length).all nonNL then some []
    else (findLiteralPrefix pat rest).map (fun pre => c :: pre)

/-- JS `cleanName.replace(/\s*Instagram photos and videos.*$/, '')`. -/
def replaceInstagramSuffix (cs : List Char) : List Char :=
  match findLiteralPrefix "Instagram photos and videos".toList cs with
  | some pre => stripTrailingWs pre
  | none => cs

/-- The full-name cleaning chain of strategy 2 (src/main.js lines
265-271): three replacements, then `trim() || null`. -/
def cleanFullName (ogTitle : String) : Option String :=
  let c1 := replaceBulletTail ogTitle.toList
  let c2 := replaceParenGroup c1
  let c3 := replaceInstagramSuffix c2
  let t := jsTrimChars c3
  if t = [] then none else some t.asString

/-- JS `String.prototype.split` with a single-character separator. -/
def splitOnChar (sep : Char) : List Char → List (List Char)
  | [] => [[]]
  | c :: rest =>
    match splitOnChar sep rest with
    | [] => if c = sep then [[], []] else [[c]]
    | h :: t => if c = sep then [] :: h :: t else (c :: h) :: t

/-- JS `url.split('/').filter(Boolean)` followed by taking the last
element (src/main.js lines 260-263); `none` models the `undefined` read
off an empty array. -/
def usernameFromUrl (url : String) : Option String :=
  (((splitOnChar '/' url.toList).map List.asString).filter (fun s => s ≠ "")).getLast?

example : usernameFromTitle "Jane Doe (@jane) • Instagram" = some "jane" := by decide
example : usernameFromTitle "Jane Doe • Instagram" = some "Jane Doe" := by decide
example : cleanFullName "Jane Doe (@jane) • Instagram photos and videos" = some "Jane Doe" := by decide
example : cleanFullName "Jane (@j) on Instagram photos and videos now" = some "Jane on" := by decide
example : usernameFromUrl "https://www.instagram.com/natgeo" = some "natgeo" := by decide

/-- The `graphql.user` object reached from `window._sharedData` via
`sharedData.entry_data.ProfilePage[0].graphql.user`.  Presence of the
whole structure models the success of `parseInstagramSharedData` plus
the optional-chaining guards of strategy 0 (src/main.js lines 181-185);
the JSON fields carry their documented Instagram types, with `none` for
an absent field and the two-condition guard
`edge && edge.count !== undefined` folded into one `Option Int`. -/
structure SharedUser where
  username : Option String
  full_name : Option String
  biography : Option String
  profile_pic_url_hd : Option String
  profile_pic_url : Option String
  is_verified : Option Bool
  external_url : Option String
  edge_followed_by_count : Option Int
  edge_follow_count : Option Int
  edge_owner_to_timeline_media_count : Option Int
deriving DecidableEq, Repr

/-- One entry of the JSON-LD `interactionStatistic` array;
`isFollowAction` models `stat.interactionType ===
'https://schema.org/FollowAction'` and the count keeps the raw string
handed to `parseInt`. -/
structure JsonLdStat where
  isFollowAction : Bool
  userInteractionCount : Option String
deriving DecidableEq, Repr

/-- The parsed JSON-LD `Person` object: the first
`script[type="application/ld+json"]` whose text contains
`"@type":"Person"` and parses (the `scripts.each` loop of strategy 1,
src/main.js lines 209-222, collapsed into an `Option`). -/
structure JsonLdPerson where
  alternateName : Option String
  name : Option String
  description : Option String
  image : Option String
  url : Option String
  interactionStatistic : Option (List JsonLdStat)
deriving DecidableEq, Repr

/-- The first `img` descendant of a post anchor. -/
structure Img where
  src : Option String
  alt : Option String
deriving DecidableEq, Repr

/-- An `<a>` element of the document together with its first `img`
descendant (`none` when `$(link).find('img')` is empty). -/
structure Anchor where
  href : Option String
  firstImg : Option Img
deriving DecidableEq, Repr

/-- The projections of the fetched page that the request handler and the
extraction functions read: `$('title').text()`, the raw response `body`,
`$('h2').text()`, `$('body').text()`, the parsed `window._sharedData`
user, the parsed JSON-LD person, the three `og:` meta attributes and the
document's anchors in document order. -/
structure Page where
  title : String
  bodyHtml : String
  h2Text : String
  bodyText : String
  sharedUser : Option SharedUser
  jsonLd : Option JsonLdPerson
  ogTitle : Option String
  ogDescription : Option String
  ogImage : Option String
  anchors : List Anchor
deriving DecidableEq, Repr

/-- The mutable `data` object of `extractProfileData`, fields in source
order (src/main.js lines 168-178). -/
structure ProfileData where
  username : Option String
  fullName : Option String
  bio : Option String
  profileImage : Option String
  followers : Option JsCount
  following : Option JsCount
  postsCount : Option JsCount
  website : Option String
  isVerified : Bool
deriving DecidableEq, Repr

/-- The initial all-null `data` object (src/main.js lines 168-178). -/
def initialData : ProfileData :=
  { username := none, fullName := none, bio := none, profileImage := none,
    followers := none, following := none, postsCount := none,
    website := none, isVerified := false }

/-- Strategy 0: populate from the `window._sharedData` user (src/main.js
lines 180-206).  String fields use `value || previous`; the three counts
are assigned unconditionally whenever the edge and its `count` exist.
The source's sequential assignments touch pairwise distinct fields, each
reading only its own previous value, so they are one record literal. -/
def strategy0 (su : Option SharedUser) (d : ProfileData) : ProfileData :=
  match su with
  | none => d
  | some user =>
    { username := jsOrStr user.username d.username,
      fullName := jsOrStr user.full_name d.fullName,
      bio := jsOrStr user.biography d.bio,
      profileImage :=
        jsOrStr (jsOrStr user.profile_pic_url_hd user.profile_pic_url) d.profileImage,
      followers :=
        match user.edge_followed_by_count with
        | some n => some (.num n)
        | none => d.followers,
      following :=
        match user.edge_follow_count with
        | some n => some (.num n)
        | none => d.following,
      postsCount :=
        match user.edge_owner_to_timeline_media_count with
        | some n => some (.num n)
        | none => d.postsCount,
      website := jsOrStr user.external_url d.website,
      isVerified := jsOrBool user.is_verified d.isVerified }

/-- The `parseInt(stat.userInteractionCount) || null` step of strategy 1;
`none` input models an absent JSON field (NaN after `parseInt`). -/
def parseIntStat (x : Option String) : Option JsCount :=
  match x with
  | none => none
  | some s => parseIntOrNull s.toList

/-- Strategy 1: populate from the JSON-LD person (src/main.js lines
224-238).  String fields use `previous || value`; the followers count
folds over the `interactionStatistic` array.  As in strategy 0, the
sequential assignments touch pairwise distinct fields. -/
def strategy1 (jsonLd : Option JsonLdPerson) (url : String) (d : ProfileData) : ProfileData :=
  match jsonLd with
  | none => d
  | some j =>
    { username := jsOrStr (jsOrStr d.username j.alternateName) j.name,
      fullName := jsOrStr d.fullName j.name,
      bio := jsOrStr d.bio j.description,
      profileImage := jsOrStr d.profileImage j.image,
      followers :=
        match j.interactionStatistic with
        | none => d.followers
        | some stats =>
          stats.foldl
            (fun acc st =>
              if st.isFollowAction then jsOrCount acc (parseIntStat st.userInteractionCount)
              else acc) d.followers,
      following := d.following,
      postsCount := d.postsCount,
      website := jsOrStr d.website (if j.url = some url then none else j.url),
      isVerified := d.isVerified }

/-- Strategy 2: username, full name and profile image from the `og:` meta
tags, with the URL fallback for the username (src/main.js lines
241-275).  The second username guard reads the value left by the first
block (`u1`); the remaining guards read fields no earlier assignment of
this strategy touches, so the block is a single record update. -/
def strategy2 (ogTitle ogImage : Option String) (url : String) (d : ProfileData) : ProfileData :=
  let u1 :=
    if ¬jsTruthyStr d.username ∧ jsTruthyStr ogTitle then
      match usernameFromTitle (ogTitle.getD "") with
      | some u => some u
      | none => d.username
    else d.username
  let u2 := if ¬jsTruthyStr u1 then usernameFromUrl url else u1
  let fn :=
    if ¬jsTruthyStr d.fullName ∧ jsTruthyStr ogTitle then cleanFullName (ogTitle.getD "")
    else d.fullName
  let pi :=
    if ¬jsTruthyStr d.profileImage ∧ jsTruthyStr ogImage then ogImage
    else d.profileImage
  { d with username := u2, fullName := fn, profileImage := pi }

/-- Strategy 3: stats from the `og:description` meta tag via the two
triple patterns, assigned with `previous || parsed` (src/main.js lines
278-293). -/
def strategy3 (ogDescription : Option String) (d : ProfileData) : ProfileData :=
  if jsTruthyStr ogDescription then
    match ogDescriptionStats (ogDescription.getD "") with
    | some (m1, m2, m3) =>
      { d with
        followers := jsOrCount d.followers (parseInstagramCount m1.asString),
        following := jsOrCount d.following (parseInstagramCount m2.asString),
        postsCount := jsOrCount d.postsCount (parseInstagramCount m3.asString) }
    | none => d
  else d

/-- Strategy 4: stats from the body text, guarded by `=== null` checks,
each field trying its two patterns in order (src/main.js lines
295-342).  Each per-field block reads and writes only its own field, so
the three blocks form a single record update. -/
def strategy4 (bodyText : String) (d : ProfileData) : ProfileData :=
  if d.followers = none ∨ d.following = none ∨ d.postsCount = none then
    let cs := bodyText.toList
    let f :=
      if d.followers = none then
        match scanNumWord "follower".toList cs with
        | some cap => parseInstagramCount cap.asString
        | none =>
          match scanWordNum "follower".toList true cs with
          | some cap => parseInstagramCount cap.asString
          | none => d.followers
      else d.followers
    let fg :=
      if d.following = none then
        match scanNumWord "following".toList cs with
        | some cap => parseInstagramCount cap.asString
        | none =>
          match scanWordNum "following".toList false cs with
          | some cap => parseInstagramCount cap.asString
          | none => d.following
      else d.following
    let pc :=
      if d.postsCount = none then
        match scanNumWord "post".toList cs with
        | some cap => parseInstagramCount cap.asString
        | none =>
          match scanWordNum "post".toList true cs with
          | some cap => parseInstagramCount cap.asString
          | none => d.postsCount
      else d.postsCount
    { d with followers := f, following := fg, postsCount := pc }
  else d

/-- The zero-to-null normalization of the three counts (src/main.js
lines 344-347, `data.followers === 0 ? null : data.followers` etc.). -/
def normalizeZeroCounts (d : ProfileData) : ProfileData :=
  { d with
    followers := if d.followers = some (.num 0) then none else d.followers,
    following := if d.following = some (.num 0) then none else d.following,
    postsCount := if d.postsCount = some (.num 0) then none else d.postsCount }

/-- The five extraction strategies of `extractProfileData` in source
order, before the zero normalization. -/
def extractStrategies (page : Page) (url : String) : ProfileData :=
  strategy4 page.bodyText
    (strategy3 page.ogDescription
      (strategy2 page.ogTitle page.ogImage url
        (strategy1 page.jsonLd url
          (strategy0 page.sharedUser initialData))))

/-- Embedding of `extractProfileData` (src/main.js lines 167-350). -/
def extractProfileData (page : Page) (url : String) : ProfileData :=
  normalizeZeroCounts (extractStrategies page url)

/-- JS `s.startsWith(prefix)` over characters. -/
def jsStartsWith (s pre : String) : Bool :=
  pre.toList.isPrefixOf s.toList

/-- The cheerio selector `a[href*="/p/"], a[href*="/reel/"]` of
`extractRecentPosts`. -/
def postSelector (a : Anchor) : Bool :=
  match a.href with
  | some h => jsIncludes h "/p/" ∨ jsIncludes h "/reel/"
  | none => false

/-- One element of the `recentPosts` array (src/main.js lines 515-519);
`altText` is always a string because of the `|| ''` fallback. -/
structure Post where
  url : String
  imageUrl : Option String
  altText : String
deriving DecidableEq, Repr

/-- The `.each` loop of `extractRecentPosts`: walks the selected anchors
keeping a running count, breaking once `posts.length >= maxPosts`, and
skipping anchors without a truthy `href` or without an `img`. -/
def collectPosts (maxPosts : Nat) : List Anchor → Nat → List Post
  | [], _ => []
  | a :: rest, cnt =>
    if maxPosts ≤ cnt then []
    else
      match a.href, a.firstImg with
      | some href, some img =>
        if href ≠ "" then
          { url := if jsStartsWith href "http" then href
                   else "https://www.instagram.com" ++ href,
            imageUrl := img.src,
            altText := img.alt.getD "" } :: collectPosts maxPosts rest (cnt + 1)
        else collectPosts maxPosts rest cnt
      | _, _ => collectPosts maxPosts rest cnt

/-- Embedding of `extractRecentPosts` (src/main.js lines 504-524). -/
def extractRecentPosts (anchors : List Anchor) (maxPosts : Nat) : List Post :=
  collectPosts maxPosts (anchors.filter postSelector) 0

/-- A profile record as pushed to the dataset on success: the nine
`extractProfileData` fields, the optional `recentPosts` array (present
exactly when it was assigned) and the two metadata fields. -/
structure SuccessRecord where
  profile : ProfileData
  recentPosts : Option (List Post)
  scrapedAt : String
  profileUrl : String
deriving DecidableEq, Repr

/-- The error-shaped record pushed on a caught failure (src/main.js
lines 152-157). -/
structure ErrorRecord where
  url : String
  error : String
  timestamp : String
  status : String
deriving DecidableEq, Repr

/-- A record pushed to the dataset by `Actor.pushData`. -/
inductive DatasetRecord where
  | success (r : SuccessRecord)
  | failure (e : ErrorRecord)
deriving DecidableEq, Repr

/-- The JSON property names of a dataset record, in insertion order. -/
def recordFields : DatasetRecord → List String
  | .success r =>
    ["username", "fullName", "bio", "profileImage", "followers", "following",
     "postsCount", "website", "isVerified"]
    ++ (if r.recentPosts.isSome then ["recentPosts"] else [])
    ++ ["scrapedAt", "profileUrl"]
  | .failure _ => ["url", "error", "timestamp", "status"]

/-- Message of the login-redirect throw (src/main.js line 113). -/
def loginErrorMsg : String :=
  "Instagram redirected to login page - profile may be private or blocked"

/-- Message of the not-found throw (src/main.js line 117). -/
def notFoundErrorMsg : String := "Profile not found or unavailable"

/-- The h2 phrase checked by the not-found detection. -/
def notFoundPhrase : String := "Sorry, this page isn" ++ "\x27" ++ "t available"

/-- The login-redirect detection (src/main.js line 112). -/
def loginRedirectCheck (page : Page) : Bool :=
  jsIncludes page.title "Login" || jsIncludes page.bodyHtml "login_and_signup_page"

/-- The not-found detection (src/main.js line 116). -/
def notFoundCheck (page : Page) : Bool :=
  jsIncludes page.bodyHtml "Page Not Found" || jsIncludes page.h2Text notFoundPhrase

/-- Both throw conditions of the handler's `try` block: these are the
only statements in the block that can throw, so they delimit success
from failure. -/
def pageFailCheck (page : Page) : Bool :=
  loginRedirectCheck page || notFoundCheck page

/-- Embedding of the crawler's `requestHandler` (src/main.js lines
97-159), returning the list of records it pushes to the dataset.  The
three aggressive fallback extractors (`extractBioFromAnywhere`,
`extractWebsiteFromAnywhere`, `detectVerification`, lines 353-501) are
taken as parameters: no claim depends on their internals and every
theorem below holds for all of them.  `now` stands for the
`new Date().toISOString()` timestamp. -/
def requestHandler (includeRecentPosts : Bool) (maxPostsToScrape : Nat)
    (bioFromAnywhere websiteFromAnywhere : Page → Option String)
    (verificationDetect : Page → Bool)
    (now : String) (url : String) (page : Page) : List DatasetRecord :=
  if loginRedirectCheck page then
    [.failure { url := url, error := loginErrorMsg, timestamp := now, status := "failed" }]
  else if notFoundCheck page then
    [.failure { url := url, error := notFoundErrorMsg, timestamp := now, status := "failed" }]
  else
    let d := extractProfileData page url
    let d := if d.bio = none then { d with bio := bioFromAnywhere page } else d
    let d := if d.website = none then { d with website := websiteFromAnywhere page } else d
    let d := if d.isVerified = false then { d with isVerified := verificationDetect page } else d
    let recent :=
      if includeRecentPosts then some (extractRecentPosts page.anchors maxPostsToScrape)
      else none
    [.success { profile := d, recentPosts := recent, scrapedAt := now, profileUrl := url }]

/-- The crawl over the prepared request list: each request is handled
independently by `requestHandler`, and every record in the dataset comes
from the handling of its own URL (`fetch` models the HTTP response for
each URL). -/
def runCrawler (includeRecentPosts : Bool) (maxPostsToScrape : Nat)
    (bioFromAnywhere websiteFromAnywhere : Page → Option String)
    (verificationDetect : Page → Bool)
    (now : String) (fetch : String → Page) (requests : List String) : List DatasetRecord :=
  requests.flatMap (fun url =>
    requestHandler includeRecentPosts maxPostsToScrape bioFromAnywhere
      websiteFromAnywhere verificationDetect now url (fetch url))

/-- One entry of the `profileUrls` input array: a string, or anything
else read through its `.url` property (`obj none` covers every entry
whose `.url` is absent or nullish — plain objects without `url`,
numbers, and so on). -/
inductive UrlInput where
  | str (s : String)
  | obj (url : Option String)
deriving DecidableEq, Repr

/-- URL normalization of the request-preparation map (src/main.js lines
562-566): drop one trailing slash, prepend `https://` when the URL does
not start with `http`. -/
def normalizeUrl (url : String) : String :=
  let cs := url.toList
  let cs := match cs.getLast? with
    | some '/' => cs.dropLast
    | _ => cs
  let cs := if "http".toList.isPrefixOf cs then cs else "https://".toList ++ cs
  cs.asString

/-- Validation and normalization of one entry (the body of the
`profileUrls.map` callback, src/main.js lines 547-569), with thrown
errors as `Except.error`. -/
def makeRequest (u : UrlInput) : Except String String :=
  let validate : String → Except String String := fun url =>
    if ¬jsIncludes url "instagram.com/" then .error ("Not an Instagram URL: " ++ url)
    else .ok (normalizeUrl url)
  match u with
  | .str s => validate s
  | .obj (some v) => if v ≠ "" then validate v else .error "Invalid URL format"
  | .obj none => .error "Invalid URL format"

/-- The `profileUrls.map(...)` request preparation: JS `map` evaluates
entries left to right and the first throw aborts the whole program. -/
def buildRequests : List UrlInput → Except String (List String)
  | [] => .ok []
  | u :: rest =>
    match makeRequest u with
    | .error e => .error e
    | .ok url =>
      match buildRequests rest with
      | .error e => .error e
      | .ok urls => .ok (url :: urls)

/-- The actor input after the destructuring defaults of src/main.js
lines 29-35, together with the two schema-declared fields the
destructuring never reads (`maxConcurrency` and `outputFormat`,
INPUT_SCHEMA.json lines 90-98 and 105-142); `none` means the field was
absent from the input JSON.  The proxy settings and the remaining
schema-only fields play no part in any claim and are omitted. -/
structure ActorInput where
  profileUrls : List UrlInput
  maxRetries : Nat
  includeRecentPosts : Bool
  maxPostsToScrape : Nat
  maxConcurrency : Option Nat
  outputFormat : Option (List String)
deriving DecidableEq, Repr

/-- The scalar options passed to the `CheerioCrawler` constructor
(src/main.js lines 73-81). -/
structure CrawlerConfig where
  maxRequestRetries : Nat
  maxConcurrency : Nat
  requestHandlerTimeoutSecs : Nat
  maxRequestsPerMinute : Nat
deriving DecidableEq, Repr

/-- The crawler configuration built from the input: `maxConcurrency` is
the literal `2` (src/main.js line 76), not a value read from the
input. -/
def crawlerConfig (input : ActorInput) : CrawlerConfig :=
  { maxRequestRetries := input.maxRetries,
    maxConcurrency := 2,
    requestHandlerTimeoutSecs := 60,
    maxRequestsPerMinute := 20 }

/-- Message of the empty-input throw (src/main.js line 39). -/
def noUrlsErrorMsg : String :=
  "No profile URLs provided. Please add at least one Instagram profile URL."

/-- The whole program run: input validation (src/main.js lines 38-40),
request preparation (lines 547-569), then the crawl (line 575).  A
thrown error is an `Except.error` and produces no dataset records. -/
def runProgram (input : ActorInput) (fetch : String → Page)
    (bioFromAnywhere websiteFromAnywhere : Page → Option String)
    (verificationDetect : Page → Bool) (now : String) :
    Except String (List DatasetRecord) :=
  if input.profileUrls.isEmpty then .error noUrlsErrorMsg
  else
    match buildRequests input.profileUrls with
    | .error e => .error e
    | .ok requests =>
      .ok (runCrawler input.includeRecentPosts input.maxPostsToScrape
        bioFromAnywhere websiteFromAnywhere verificationDetect now fetch requests)

theorem jsOrStr_pos {a : Option String} (b : Option String) (h : jsTruthyStr a = true) :
    jsOrStr a b = a := by
  unfold jsOrStr
  simp [h]

theorem jsOrCount_pos {a : Option JsCount} (b : Option JsCount) (h : jsTruthyCount a = true) :
    jsOrCount a b = a := by
  unfold jsOrCount
  simp [h]

theorem jsTruthyStr_some {s : String} (h : s ≠ "") : jsTruthyStr (some s) = true := by
  simp [jsTruthyStr, h]

theorem jsTruthyCount_num {n : Int} (h : n ≠ 0) : jsTruthyCount (some (.num n)) = true := by
  simp [jsTruthyCount, h]

theorem foldStats_pos (stats : List JsonLdStat) (a : Option JsCount)
    (h : jsTruthyCount a = true) :
    stats.foldl
      (fun acc st =>
        if st.isFollowAction then jsOrCount acc (parseIntStat st.userInteractionCount)
        else acc) a = a := by
  induction stats with
  | nil => rfl
  | cons st rest ih =>
    simp only [List.foldl_cons]
    have hstep :
        (if st.isFollowAction then jsOrCount a (parseIntStat st.userInteractionCount)
         else a) = a := by
      split
      · exact jsOrCount_pos _ h
      · rfl
    rw [hstep, ih]

theorem strategy1_followers_pos (j : Option JsonLdPerson) (url : String) (d : ProfileData)
    (h : jsTruthyCount d.followers = true) : (strategy1 j url d).followers = d.followers := by
  unfold strategy1
  match j with
  | none => rfl
  | some p =>
    simp only
    match p.interactionStatistic with
    | none => rfl
    | some stats => exact foldStats_pos stats d.followers h

theorem strategy1_following (j : Option JsonLdPerson) (url : String) (d : ProfileData) :
    (strategy1 j url d).following = d.following := by
  unfold strategy1
  match j with
  | none => rfl
  | some p => rfl

theorem strategy1_postsCount (j : Option JsonLdPerson) (url : String) (d : ProfileData) :
    (strategy1 j url d).postsCount = d.postsCount := by
  unfold strategy1
  match j with
  | none => rfl
  | some p => rfl

theorem strategy2_counts (t i : Option String) (url : String) (d : ProfileData) :
    (strategy2 t i url d).followers = d.followers ∧
    (strategy2 t i url d).following = d.following ∧
    (strategy2 t i url d).postsCount = d.postsCount := by
  unfold strategy2
  repeat' split
  all_goals simp

theorem strategy3_followers_pos (og : Option String) (d : ProfileData)
    (h : jsTruthyCount d.followers = true) : (strategy3 og d).followers = d.followers := by
  unfold strategy3
  repeat' split
  all_goals simp [jsOrCount_pos _ h]

theorem strategy3_following_pos (og : Option String) (d : ProfileData)
    (h : jsTruthyCount d.following = true) : (strategy3 og d).following = d.following := by
  unfold strategy3
  repeat' split
  all_goals simp [jsOrCount_pos _ h]

theorem strategy3_postsCount_pos (og : Option String) (d : ProfileData)
    (h : jsTruthyCount d.postsCount = true) : (strategy3 og d).postsCount = d.postsCount := by
  unfold strategy3
  repeat' split
  all_goals simp [jsOrCount_pos _ h]

theorem strategy4_followers_keep (bt : String) (d : ProfileData)
    (h : d.followers ≠ none) : (strategy4 bt d).followers = d.followers := by
  unfold strategy4
  repeat' split
  all_goals simp_all

theorem strategy4_following_keep (bt : String) (d : ProfileData)
    (h : d.following ≠ none) : (strategy4 bt d).following = d.following := by
  unfold strategy4
  repeat' split
  all_goals simp_all

theorem strategy4_postsCount_keep (bt : String) (d : ProfileData)
    (h : d.postsCount ≠ none) : (strategy4 bt d).postsCount = d.postsCount := by
  unfold strategy4
  repeat' split
  all_goals simp_all

theorem normalize_followers_pos (d : ProfileData) {n : Int} (hn : n ≠ 0)
    (h : d.followers = some (.num n)) :
    (normalizeZeroCounts d).followers = some (.num n) := by
  unfold normalizeZeroCounts
  simp [h, hn]

theorem normalize_following_pos (d : ProfileData) {n : Int} (hn : n ≠ 0)
    (h : d.following = some (.num n)) :
    (normalizeZeroCounts d).following = some (.num n) := by
  unfold normalizeZeroCounts
  simp [h, hn]

theorem normalize_postsCount_pos (d : ProfileData) {n : Int} (hn : n ≠ 0)
    (h : d.postsCount = some (.num n)) :
    (normalizeZeroCounts d).postsCount = some (.num n) := by
  unfold normalizeZeroCounts
  simp [h, hn]

theorem strategy1_username_pos (j : Option JsonLdPerson) (url : String) (d : ProfileData)
    (h : jsTruthyStr d.username = true) : (strategy1 j url d).username = d.username := by
  cases j with
  | none => rfl
  | some p =>
    have h1 : jsOrStr d.username p.alternateName = d.username := jsOrStr_pos _ h
    show jsOrStr (jsOrStr d.username p.alternateName) p.name = d.username
    rw [h1, jsOrStr_pos _ h]

theorem strategy1_fullName_pos (j : Option JsonLdPerson) (url : String) (d : ProfileData)
    (h : jsTruthyStr d.fullName = true) : (strategy1 j url d).fullName = d.fullName := by
  cases j with
  | none => rfl
  | some p => exact jsOrStr_pos _ h

theorem strategy1_bio_pos (j : Option JsonLdPerson) (url : String) (d : ProfileData)
    (h : jsTruthyStr d.bio = true) : (strategy1 j url d).bio = d.bio := by
  cases j with
  | none => rfl
  | some p => exact jsOrStr_pos _ h

theorem strategy1_profileImage_pos (j : Option JsonLdPerson) (url : String) (d : ProfileData)
    (h : jsTruthyStr d.profileImage = true) : (strategy1 j url d).profileImage = d.profileImage := by
  cases j with
  | none => rfl
  | some p => exact jsOrStr_pos _ h

theorem strategy1_website_pos (j : Option JsonLdPerson) (url : String) (d : ProfileData)
    (h : jsTruthyStr d.website = true) : (strategy1 j url d).website = d.website := by
  cases j with
  | none => rfl
  | some p => exact jsOrStr_pos _ h

theorem strategy2_username_pos (t i : Option String) (url : String) (d : ProfileData)
    (h : jsTruthyStr d.username = true) : (strategy2 t i url d).username = d.username := by
  unfold strategy2
  simp [h]

theorem strategy2_fullName_pos (t i : Option String) (url : String) (d : ProfileData)
    (h : jsTruthyStr d.fullName = true) : (strategy2 t i url d).fullName = d.fullName := by
  unfold strategy2
  simp [h]

theorem strategy2_profileImage_pos (t i : Option String) (url : String) (d : ProfileData)
    (h : jsTruthyStr d.profileImage = true) :
    (strategy2 t i url d).profileImage = d.profileImage := by
  unfold strategy2
  simp [h]

theorem strategy2_bio (t i : Option String) (url : String) (d : ProfileData) :
    (strategy2 t i url d).bio = d.bio := rfl

theorem strategy2_website (t i : Option String) (url : String) (d : ProfileData) :
    (strategy2 t i url d).website = d.website := rfl

theorem strategy3_strings (og : Option String) (d : ProfileData) :
    (strategy3 og d).username = d.username ∧ (strategy3 og d).fullName = d.fullName ∧
    (strategy3 og d).bio = d.bio ∧ (strategy3 og d).profileImage = d.profileImage ∧
    (strategy3 og d).website = d.website := by
  unfold strategy3
  repeat' split
  all_goals simp

theorem strategy4_strings (bt : String) (d : ProfileData) :
    (strategy4 bt d).username = d.username ∧ (strategy4 bt d).fullName = d.fullName ∧
    (strategy4 bt d).bio = d.bio ∧ (strategy4 bt d).profileImage = d.profileImage ∧
    (strategy4 bt d).website = d.website := by
  unfold strategy4
  repeat' split
  all_goals simp

theorem normalize_strings (d : ProfileData) :
    (normalizeZeroCounts d).username = d.username ∧
    (normalizeZeroCounts d).fullName = d.fullName ∧
    (normalizeZeroCounts d).bio = d.bio ∧
    (normalizeZeroCounts d).profileImage = d.profileImage ∧
    (normalizeZeroCounts d).website = d.website := by
  unfold normalizeZeroCounts
  exact ⟨rfl, rfl, rfl, rfl, rfl⟩

theorem pipeline_followers_pos (page : Page) (url : String) {n : Int} (hn : n ≠ 0)
    (h : (strategy0 page.sharedUser initialData).followers = some (.num n)) :
    (extractProfileData page url).followers = some (.num n) := by
  unfold extractProfileData extractStrategies
  have h1 : (strategy1 page.jsonLd url (strategy0 page.sharedUser initialData)).followers
      = some (.num n) := by
    rw [strategy1_followers_pos _ _ _ (by rw [h]; exact jsTruthyCount_num hn)]
    exact h
  have h2 : (strategy2 page.ogTitle page.ogImage url
      (strategy1 page.jsonLd url (strategy0 page.sharedUser initialData))).followers
      = some (.num n) := by
    rw [(strategy2_counts _ _ _ _).1]
    exact h1
  have h3 : (strategy3 page.ogDescription (strategy2 page.ogTitle page.ogImage url
      (strategy1 page.jsonLd url (strategy0 page.sharedUser initialData)))).followers
      = some (.num n) := by
    rw [strategy3_followers_pos _ _ (by rw [h2]; exact jsTruthyCount_num hn)]
    exact h2
  have h4 : (strategy4 page.bodyText (strategy3 page.ogDescription
      (strategy2 page.ogTitle page.ogImage url (strategy1 page.jsonLd url
        (strategy0 page.sharedUser initialData))))).followers = some (.num n) := by
    rw [strategy4_followers_keep _ _ (by rw [h3]; simp)]
    exact h3
  exact normalize_followers_pos _ hn h4

theorem pipeline_following_pos (page : Page) (url : String) {n : Int} (hn : n ≠ 0)
    (h : (strategy0 page.sharedUser initialData).following = some (.num n)) :
    (extractProfileData page url).following = some (.num n) := by
  unfold extractProfileData extractStrategies
  have h1 : (strategy1 page.jsonLd url (strategy0 page.sharedUser initialData)).following
      = some (.num n) := by
    rw [strategy1_following]
    exact h
  have h2 : (strategy2 page.ogTitle page.ogImage url
      (strategy1 page.jsonLd url (strategy0 page.sharedUser initialData))).following
      = some (.num n) := by
    rw [(strategy2_counts _ _ _ _).2.1]
    exact h1
  have h3 : (strategy3 page.ogDescription (strategy2 page.ogTitle page.ogImage url
      (strategy1 page.jsonLd url (strategy0 page.sharedUser initialData)))).following
      = some (.num n) := by
    rw [strategy3_following_pos _ _ (by rw [h2]; exact jsTruthyCount_num hn)]
    exact h2
  have h4 : (strategy4 page.bodyText (strategy3 page.ogDescription
      (strategy2 page.ogTitle page.ogImage url (strategy1 page.jsonLd url
        (strategy0 page.sharedUser initialData))))).following = some (.num n) := by
    rw [strategy4_following_keep _ _ (by rw [h3]; simp)]
    exact h3
  exact normalize_following_pos _ hn h4

theorem pipeline_postsCount_pos (page : Page) (url : String) {n : Int} (hn : n ≠ 0)
    (h : (strategy0 page.sharedUser initialData).postsCount = some (.num n)) :
    (extractProfileData page url).postsCount = some (.num n) := by
  unfold extractProfileData extractStrategies
  have h1 : (strategy1 page.jsonLd url (strategy0 page.sharedUser initialData)).postsCount
      = some (.num n) := by
    rw [strategy1_postsCount]
    exact h
  have h2 : (strategy2 page.ogTitle page.ogImage url
      (strategy1 page.jsonLd url (strategy0 page.sharedUser initialData))).postsCount
      = some (.num n) := by
    rw [(strategy2_counts _ _ _ _).2.2]
    exact h1
  have h3 : (strategy3 page.ogDescription (strategy2 page.ogTitle page.ogImage url
      (strategy1 page.jsonLd url (strategy0 page.sharedUser initialData)))).postsCount
      = some (.num n) := by
    rw [strategy3_postsCount_pos _ _ (by rw [h2]; exact jsTruthyCount_num hn)]
    exact h2
  have h4 : (strategy4 page.bodyText (strategy3 page.ogDescription
      (strategy2 page.ogTitle page.ogImage url (strategy1 page.jsonLd url
        (strategy0 page.sharedUser initialData))))).postsCount = some (.num n) := by
    rw [strategy4_postsCount_keep _ _ (by rw [h3]; simp)]
    exact h3
  exact normalize_postsCount_pos _ hn h4

theorem pipeline_username_pos (page : Page) (url : String) {s : String} (hs : s ≠ "")
    (h : (strategy0 page.sharedUser initialData).username = some s) :
    (extractProfileData page url).username = some s := by
  unfold extractProfileData extractStrategies
  have ht : jsTruthyStr (some s) = true := jsTruthyStr_some hs
  have h1 : (strategy1 page.jsonLd url (strategy0 page.sharedUser initialData)).username
      = some s := by
    rw [strategy1_username_pos _ _ _ (by rw [h]; exact ht)]
    exact h
  have h2 : (strategy2 page.ogTitle page.ogImage url
      (strategy1 page.jsonLd url (strategy0 page.sharedUser initialData))).username
      = some s := by
    rw [strategy2_username_pos _ _ _ _ (by rw [h1]; exact ht)]
    exact h1
  have h3 := (strategy3_strings page.ogDescription (strategy2 page.ogTitle page.ogImage url
      (strategy1 page.jsonLd url (strategy0 page.sharedUser initialData)))).1
  have h4 := (strategy4_strings page.bodyText (strategy3 page.ogDescription
      (strategy2 page.ogTitle page.ogImage url (strategy1 page.jsonLd url
        (strategy0 page.sharedUser initialData))))).1
  have h5 := (normalize_strings (strategy4 page.bodyText (strategy3 page.ogDescription
      (strategy2 page.ogTitle page.ogImage url (strategy1 page.jsonLd url
        (strategy0 page.sharedUser initialData)))))).1
  rw [h5, h4, h3, h2]

theorem pipeline_fullName_pos (page : Page) (url : String) {s : String} (hs : s ≠ "")
    (h : (strategy0 page.sharedUser initialData).fullName = some s) :
    (extractProfileData page url).fullName = some s := by
  unfold extractProfileData extractStrategies
  have ht : jsTruthyStr (some s) = true := jsTruthyStr_some hs
  have h1 : (strategy1 page.jsonLd url (strategy0 page.sharedUser initialData)).fullName
      = some s := by
    rw [strategy1_fullName_pos _ _ _ (by rw [h]; exact ht)]
    exact h
  have h2 : (strategy2 page.ogTitle page.ogImage url
      (strategy1 page.jsonLd url (strategy0 page.sharedUser initialData))).fullName
      = some s := by
    rw [strategy2_fullName_pos _ _ _ _ (by rw [h1]; exact ht)]
    exact h1
  have h3 := (strategy3_strings page.ogDescription (strategy2 page.ogTitle page.ogImage url
      (strategy1 page.jsonLd url (strategy0 page.sharedUser initialData)))).2.1
  have h4 := (strategy4_strings page.bodyText (strategy3 page.ogDescription
      (strategy2 page.ogTitle page.ogImage url (strategy1 page.jsonLd url
        (strategy0 page.sharedUser initialData))))).2.1
  have h5 := (normalize_strings (strategy4 page.bodyText (strategy3 page.ogDescription
      (strategy2 page.ogTitle page.ogImage url (strategy1 page.jsonLd url
        (strategy0 page.sharedUser initialData)))))).2.1
  rw [h5, h4, h3, h2]

theorem pipeline_bio_pos (page : Page) (url : String) {s : String} (hs : s ≠ "")
    (h : (strategy0 page.sharedUser initialData).bio = some s) :
    (extractProfileData page url).bio = some s := by
  unfold extractProfileData extractStrategies
  have ht : jsTruthyStr (some s) = true := jsTruthyStr_some hs
  have h1 : (strategy1 page.jsonLd url (strategy0 page.sharedUser initialData)).bio
      = some s := by
    rw [strategy1_bio_pos _ _ _ (by rw [h]; exact ht)]
    exact h
  have h2 : (strategy2 page.ogTitle page.ogImage url
      (strategy1 page.jsonLd url (strategy0 page.sharedUser initialData))).bio
      = some s := by
    rw [strategy2_bio]
    exact h1
  have h3 := (strategy3_strings page.ogDescription (strategy2 page.ogTitle page.ogImage url
      (strategy1 page.jsonLd url (strategy0 page.sharedUser initialData)))).2.2.1
  have h4 := (strategy4_strings page.bodyText (strategy3 page.ogDescription
      (strategy2 page.ogTitle page.ogImage url (strategy1 page.jsonLd url
        (strategy0 page.sharedUser initialData))))).2.2.1
  have h5 := (normalize_strings (strategy4 page.bodyText (strategy3 page.ogDescription
      (strategy2 page.ogTitle page.ogImage url (strategy1 page.jsonLd url
        (strategy0 page.sharedUser initialData)))))).2.2.1
  rw [h5, h4, h3, h2]

theorem pipeline_website_pos (page : Page) (url : String) {s : String} (hs : s ≠ "")
    (h : (strategy0 page.sharedUser initialData).website = some s) :
    (extractProfileData page url).website = some s := by
  unfold extractProfileData extractStrategies
  have ht : jsTruthyStr (some s) = true := jsTruthyStr_some hs
  have h1 : (strategy1 page.jsonLd url (strategy0 page.sharedUser initialData)).website
      = some s := by
    rw [strategy1_website_pos _ _ _ (by rw [h]; exact ht)]
    exact h
  have h2 : (strategy2 page.ogTitle page.ogImage url
      (strategy1 page.jsonLd url (strategy0 page.sharedUser initialData))).website
      = some s := by
    rw [strategy2_website]
    exact h1
  have h3 := (strategy3_strings page.ogDescription (strategy2 page.ogTitle page.ogImage url
      (strategy1 page.jsonLd url (strategy0 page.sharedUser initialData)))).2.2.2.2
  have h4 := (strategy4_strings page.bodyText (strategy3 page.ogDescription
      (strategy2 page.ogTitle page.ogImage url (strategy1 page.jsonLd url
        (strategy0 page.sharedUser initialData))))).2.2.2.2
  have h5 := (normalize_strings (strategy4 page.bodyText (strategy3 page.ogDescription
      (strategy2 page.ogTitle page.ogImage url (strategy1 page.jsonLd url
        (strategy0 page.sharedUser initialData)))))).2.2.2.2
  rw [h5, h4, h3, h2]

theorem pipeline_profileImage_pos (page : Page) (url : String) {s : String} (hs : s ≠ "")
    (h : (strategy0 page.sharedUser initialData).profileImage = some s) :
    (extractProfileData page url).profileImage = some s := by
  unfold extractProfileData extractStrategies
  have ht : jsTruthyStr (some s) = true := jsTruthyStr_some hs
  have h1 : (strategy1 page.jsonLd url (strategy0 page.sharedUser initialData)).profileImage
      = some s := by
    rw [strategy1_profileImage_pos _ _ _ (by rw [h]; exact ht)]
    exact h
  have h2 : (strategy2 page.ogTitle page.ogImage url
      (strategy1 page.jsonLd url (strategy0 page.sharedUser initialData))).profileImage
      = some s := by
    rw [strategy2_profileImage_pos _ _ _ _ (by rw [h1]; exact ht)]
    exact h1
  have h3 := (strategy3_strings page.ogDescription (strategy2 page.ogTitle page.ogImage url
      (strategy1 page.jsonLd url (strategy0 page.sharedUser initialData)))).2.2.2.1
  have h4 := (strategy4_strings page.bodyText (strategy3 page.ogDescription
      (strategy2 page.ogTitle page.ogImage url (strategy1 page.jsonLd url
        (strategy0 page.sharedUser initialData))))).2.2.2.1
  have h5 := (normalize_strings (strategy4 page.bodyText (strategy3 page.ogDescription
      (strategy2 page.ogTitle page.ogImage url (strategy1 page.jsonLd url
        (strategy0 page.sharedUser initialData)))))).2.2.2.1
  rw [h5, h4, h3, h2]

/-- A page with every projection empty or absent; it passes both failure
checks of the request handler. -/
def emptyPage : Page :=
  { title := "", bodyHtml := "", h2Text := "", bodyText := "",
    sharedUser := none, jsonLd := none, ogTitle := none, ogDescription := none,
    ogImage := none, anchors := [] }

/-- A `window._sharedData` user whose followers count is 0. -/
def suZero : SharedUser :=
  { username := some "zerouser", full_name := none, biography := none,
    profile_pic_url_hd := none, profile_pic_url := none, is_verified := none,
    external_url := none,
    edge_followed_by_count := some 0, edge_follow_count := some 3,
    edge_owner_to_timeline_media_count := some 4 }

/-- A page whose `window._sharedData` reports 0 followers while the
`og:description` meta tag reports 5. -/
def pageZeroFollowers : Page :=
  { emptyPage with
    sharedUser := some suZero,
    ogDescription := some "5 Followers, 3 Following, 2 Posts" }

/-- C3, counterexample: the page's highest-priority strategy
(`window._sharedData`) extracts a followers count of 0, yet the final
record reports 5 — the lower-priority `og:description` strategy replaced
it, because the strategy-3 assignment `data.followers = data.followers
|| parseInstagramCount(...)` treats the extracted 0 as unset (falsy).
Under the claim the 0 would be preserved (and nulled by the zero
normalization), never replaced by 5. -/
theorem c3_priority_counterexample :
    (∃ u, pageZeroFollowers.sharedUser = some u ∧ u.edge_followed_by_count = some 0) ∧
    (extractProfileData pageZeroFollowers "https://www.instagram.com/zerouser").followers
      = some (.num 5) :=
  ⟨⟨suZero, rfl, rfl⟩, by decide⟩

/-- C3 (amended): the extraction strategies run in the fixed priority
order `window._sharedData`, JSON-LD, `og:` meta tags, body-text regexes,
and a TRUTHY value extracted by a higher-priority strategy — a nonzero
count or a nonempty string — is never replaced by a lower-priority
strategy.  (A falsy extracted value, such as a count of 0 or an empty
string, can be replaced, as the counterexample shows.) -/
theorem c3_priority_amended (page : Page) (url : String) (u : SharedUser)
    (hsu : page.sharedUser = some u) :
    (∀ n : Int, u.edge_followed_by_count = some n → n ≠ 0 →
      (extractProfileData page url).followers = some (.num n)) ∧
    (∀ n : Int, u.edge_follow_count = some n → n ≠ 0 →
      (extractProfileData page url).following = some (.num n)) ∧
    (∀ n : Int, u.edge_owner_to_timeline_media_count = some n → n ≠ 0 →
      (extractProfileData page url).postsCount = some (.num n)) ∧
    (∀ s : String, u.username = some s → s ≠ "" →
      (extractProfileData page url).username = some s) ∧
    (∀ s : String, u.full_name = some s → s ≠ "" →
      (extractProfileData page url).fullName = some s) ∧
    (∀ s : String, u.biography = some s → s ≠ "" →
      (extractProfileData page url).bio = some s) ∧
    (∀ s : String, u.external_url = some s → s ≠ "" →
      (extractProfileData page url).website = some s) ∧
    (∀ s : String, u.profile_pic_url_hd = some s → s ≠ "" →
      (extractProfileData page url).profileImage = some s) := by
  refine ⟨?_, ?_, ?_, ?_, ?_, ?_, ?_, ?_⟩
  · intro n hc hn
    apply pipeline_followers_pos page url hn
    rw [hsu]
    simp [strategy0, hc]
  · intro n hc hn
    apply pipeline_following_pos page url hn
    rw [hsu]
    simp [strategy0, hc]
  · intro n hc hn
    apply pipeline_postsCount_pos page url hn
    rw [hsu]
    simp [strategy0, hc]
  · intro s hv hs
    apply pipeline_username_pos page url hs
    rw [hsu]
    simp [strategy0, jsOrStr, jsTruthyStr, hv, hs]
  · intro s hv hs
    apply pipeline_fullName_pos page url hs
    rw [hsu]
    simp [strategy0, jsOrStr, jsTruthyStr, hv, hs]
  · intro s hv hs
    apply pipeline_bio_pos page url hs
    rw [hsu]
    simp [strategy0, jsOrStr, jsTruthyStr, hv, hs]
  · intro s hv hs
    apply pipeline_website_pos page url hs
    rw [hsu]
    simp [strategy0, jsOrStr, jsTruthyStr, hv, hs]
  · intro s hv hs
    apply pipeline_profileImage_pos page url hs
    rw [hsu]
    simp [strategy0, jsOrStr, jsTruthyStr, hv, hs]

/-- A `window._sharedData` user with truthy values in every field. -/
def suTruthy : SharedUser :=
  { username := some "natgeo", full_name := some "National Geographic",
    biography := some "Experience the world",
    profile_pic_url_hd := some "https://img.example/hd.jpg",
    profile_pic_url := some "https://img.example/sd.jpg", is_verified := some true,
    external_url := some "https://www.natgeo.example",
    edge_followed_by_count := some 7, edge_follow_count := some 8,
    edge_owner_to_timeline_media_count := some 9 }

/-- A page whose `window._sharedData` carries truthy values everywhere
while lower-priority sources offer conflicting values. -/
def pageTruthy : Page :=
  { emptyPage with
    sharedUser := some suTruthy,
    ogTitle := some "Other Name (@othername) • Instagram photos and videos",
    ogDescription := some "5 Followers, 3 Following, 2 Posts",
    bodyText := "1K followers 2K following 3K posts" }

theorem c3_priority_amended_witness :
    pageTruthy.sharedUser = some suTruthy ∧
    (extractProfileData pageTruthy "https://www.instagram.com/natgeo").followers
      = some (.num 7) ∧
    (extractProfileData pageTruthy "https://www.instagram.com/natgeo").username
      = some "natgeo" :=
  ⟨rfl,
    (c3_priority_amended pageTruthy "https://www.instagram.com/natgeo" suTruthy rfl).1
      7 rfl (by decide),
    (c3_priority_amended pageTruthy "https://www.instagram.com/natgeo" suTruthy
      rfl).2.2.2.1 "natgeo" rfl (by decide)⟩

/-- C8: the zero normalization at the end of `extractProfileData` maps a
strategy-produced count of exactly 0 to `null`, and consequently no
returned record carries a count of exactly 0 in `followers`, `following`
or `postsCount`. -/
theorem c8_zero_counts_normalized (page : Page) (url : String) :
    ((extractStrategies page url).followers = some (.num 0) →
      (extractProfileData page url).followers = none) ∧
    ((extractStrategies page url).following = some (.num 0) →
      (extractProfileData page url).following = none) ∧
    ((extractStrategies page url).postsCount = some (.num 0) →
      (extractProfileData page url).postsCount = none) ∧
    (extractProfileData page url).followers ≠ some (.num 0) ∧
    (extractProfileData page url).following ≠ some (.num 0) ∧
    (extractProfileData page url).postsCount ≠ some (.num 0) := by
  unfold extractProfileData normalizeZeroCounts
  refine ⟨fun h => by simp [h], fun h => by simp [h], fun h => by simp [h], ?_, ?_, ?_⟩
  all_goals split
  all_goals simp_all

/-- A `window._sharedData` user reporting 0 for all three counts. -/
def suAllZero : SharedUser :=
  { username := none, full_name := none, biography := none,
    profile_pic_url_hd := none, profile_pic_url := none, is_verified := none,
    external_url := none,
    edge_followed_by_count := some 0, edge_follow_count := some 0,
    edge_owner_to_timeline_media_count := some 0 }

/-- A page whose only data source reports all counts as 0. -/
def pageAllZero : Page := { emptyPage with sharedUser := some suAllZero }

theorem c8_zero_counts_normalized_witness :
    (extractStrategies pageAllZero "https://www.instagram.com/z").followers = some (.num 0) ∧
    (extractProfileData pageAllZero "https://www.instagram.com/z").followers = none :=
  ⟨by decide,
    (c8_zero_counts_normalized pageAllZero "https://www.instagram.com/z").1 (by decide)⟩

theorem requestHandler_length (ipl : Bool) (mp : Nat)
    (bf wf : Page → Option String) (vf : Page → Bool) (now url : String) (page : Page) :
    (requestHandler ipl mp bf wf vf now url page).length = 1 := by
  unfold requestHandler
  repeat' split
  all_goals rfl

theorem runCrawler_length (ipl : Bool) (mp : Nat)
    (bf wf : Page → Option String) (vf : Page → Bool) (now : String)
    (fetch : String → Page) (requests : List String) :
    (runCrawler ipl mp bf wf vf now fetch requests).length = requests.length := by
  induction requests with
  | nil => rfl
  | cons u rest ih =>
    unfold runCrawler at ih ⊢
    simp only [List.flatMap_cons, List.length_append, ih, List.length_cons]
    rw [requestHandler_length]
    omega

/-- C1 (amended): every handled URL yields exactly one dataset record;
on success its fields are username, fullName, bio, profileImage,
followers, following, postsCount, website, isVerified, then
`recentPosts` exactly when `includeRecentPosts` is enabled, then
scrapedAt and profileUrl; on failure its fields are exactly url, error,
timestamp, status. -/
theorem c1_record_shape_amended (ipl : Bool) (mp : Nat)
    (bf wf : Page → Option String) (vf : Page → Bool)
    (now url : String) (page : Page) :
    (requestHandler ipl mp bf wf vf now url page).map recordFields =
      [if pageFailCheck page then ["url", "error", "timestamp", "status"]
       else ["username", "fullName", "bio", "profileImage", "followers", "following",
          "postsCount", "website", "isVerified"]
        ++ (if ipl then ["recentPosts"] else []) ++ ["scrapedAt", "profileUrl"]] ∧
    (requestHandler ipl mp bf wf vf now url page).length = 1 := by
  refine ⟨?_, requestHandler_length ipl mp bf wf vf now url page⟩
  unfold requestHandler pageFailCheck recordFields
  by_cases h1 : loginRedirectCheck page = true
  · simp [h1]
  · by_cases h2 : notFoundCheck page = true
    · simp [h1, h2]
    · cases ipl
      · simp [h1, h2]
      · simp [h1, h2]

/-- C1, counterexample: with `includeRecentPosts` disabled (its default),
a successfully processed page produces a record WITHOUT the
`recentPosts` field, so the record does not contain all twelve fields the
claim lists. -/
theorem c1_record_shape_counterexample :
    (requestHandler false 12 (fun _ => none) (fun _ => none) (fun _ => false)
        "2024-05-01T00:00:00.000Z" "https://www.instagram.com/natgeo" emptyPage).map
        recordFields
      = [["username", "fullName", "bio", "profileImage", "followers", "following",
          "postsCount", "website", "isVerified", "scrapedAt", "profileUrl"]] ∧
    "recentPosts" ∉
      ["username", "fullName", "bio", "profileImage", "followers", "following",
       "postsCount", "website", "isVerified", "scrapedAt", "profileUrl"] ∧
    pageFailCheck emptyPage = false := by
  refine ⟨by decide, by decide, by decide⟩

/-- C2: whenever the fetched page trips one of the handler's failure
checks (login redirect or profile-not-found), the handler catches the
throw and pushes exactly the error record `{url, error, timestamp,
status: 'failed'}`, and the crawl still produces one record per
requested URL (it does not abort). -/
theorem c2_failure_handling (ipl : Bool) (mp : Nat)
    (bf wf : Page → Option String) (vf : Page → Bool) (now : String)
    (fetch : String → Page) (requests : List String) (url : String)
    (h : pageFailCheck (fetch url) = true) :
    (∃ e : ErrorRecord,
      requestHandler ipl mp bf wf vf now url (fetch url) = [.failure e] ∧
      e.url = url ∧ e.status = "failed" ∧ e.timestamp = now ∧
      (e.error = loginErrorMsg ∨ e.error = notFoundErrorMsg)) ∧
    (runCrawler ipl mp bf wf vf now fetch requests).length = requests.length := by
  refine ⟨?_, runCrawler_length ipl mp bf wf vf now fetch requests⟩
  unfold pageFailCheck at h
  by_cases h1 : loginRedirectCheck (fetch url) = true
  · exact ⟨⟨url, loginErrorMsg, now, "failed"⟩, by simp [requestHandler, h1],
      rfl, rfl, rfl, Or.inl rfl⟩
  · have h2 : notFoundCheck (fetch url) = true := by
      simp [h1] at h
      exact h
    exact ⟨⟨url, notFoundErrorMsg, now, "failed"⟩, by simp [requestHandler, h1, h2],
      rfl, rfl, rfl, Or.inr rfl⟩

/-- A page that triggers the login-redirect check. -/
def pageLogin : Page := { emptyPage with title := "Login • Instagram" }

/-- A fetch oracle that always returns the login-redirect page. -/
def fetchLogin : String → Page := fun _ => pageLogin

theorem c2_failure_handling_witness :
    pageFailCheck (fetchLogin "https://www.instagram.com/a") = true ∧
    ((∃ e : ErrorRecord,
      requestHandler false 12 (fun _ => none) (fun _ => none) (fun _ => false) "T"
          "https://www.instagram.com/a" (fetchLogin "https://www.instagram.com/a")
        = [.failure e] ∧
      e.url = "https://www.instagram.com/a" ∧ e.status = "failed" ∧ e.timestamp = "T" ∧
      (e.error = loginErrorMsg ∨ e.error = notFoundErrorMsg)) ∧
    (runCrawler false 12 (fun _ => none) (fun _ => none) (fun _ => false) "T" fetchLogin
      ["https://www.instagram.com/a", "https://www.instagram.com/b"]).length = 2) :=
  ⟨by decide,
    c2_failure_handling false 12 (fun _ => none) (fun _ => none) (fun _ => false) "T"
      fetchLogin ["https://www.instagram.com/a", "https://www.instagram.com/b"]
      "https://www.instagram.com/a" (by decide)⟩

/-- C7: every handled URL pushes exactly one record, during its own
handling: the handler's push list is a singleton on every path, the
dataset holds exactly one record per requested URL, and the i-th dataset
record is fully determined by the i-th request alone (no state crosses
requests). -/
theorem c7_single_emission (ipl : Bool) (mp : Nat)
    (bf wf : Page → Option String) (vf : Page → Bool) (now : String)
    (fetch : String → Page) :
    (∀ url page, (requestHandler ipl mp bf wf vf now url page).length = 1) ∧
    (∀ requests : List String,
      (runCrawler ipl mp bf wf vf now fetch requests).length = requests.length ∧
      ∀ i : Nat,
        (runCrawler ipl mp bf wf vf now fetch requests)[i]?
          = (requests[i]?).bind (fun url =>
              (requestHandler ipl mp bf wf vf now url (fetch url)).head?)) := by
  refine ⟨fun url page => requestHandler_length ipl mp bf wf vf now url page,
    fun requests => ⟨runCrawler_length ipl mp bf wf vf now fetch requests, ?_⟩⟩
  intro i
  induction requests generalizing i with
  | nil => simp [runCrawler]
  | cons u rest ih =>
    have hsing : ∃ rec, requestHandler ipl mp bf wf vf now u (fetch u) = [rec] :=
      List.length_eq_one.mp (requestHandler_length ipl mp bf wf vf now u (fetch u))
    obtain ⟨rec, hrec⟩ := hsing
    unfold runCrawler
    simp only [List.flatMap_cons, hrec, List.singleton_append]
    cases i with
    | zero => simp [hrec]
    | succ j =>
      simp only [List.getElem?_cons_succ]
      exact ih j

/-- An input selecting only `username` in `outputFormat`. -/
def inputSelectUsername : ActorInput :=
  { profileUrls := [.str "https://www.instagram.com/natgeo"], maxRetries := 3,
    includeRecentPosts := false, maxPostsToScrape := 12,
    maxConcurrency := none, outputFormat := some ["username"] }

/-- A fetch oracle returning the empty (but successfully parsed) page. -/
def fetchEmpty : String → Page := fun _ => emptyPage

/-- C5, code bug: the input destructuring (src/main.js lines 29-35) never
reads `outputFormat`, so the emitted records are identical for any two
values of it, and a run whose `outputFormat` selects only `username`
still emits a success record carrying `bio` (and every other field) —
contradicting the INPUT_SCHEMA description of `outputFormat` as
selecting which data fields to include in the output. -/
theorem c5_outputFormat_ignored :
    (∀ (input : ActorInput) (x y : Option (List String)) (fetch : String → Page)
        (bf wf : Page → Option String) (vf : Page → Bool) (now : String),
      runProgram { input with outputFormat := x } fetch bf wf vf now
        = runProgram { input with outputFormat := y } fetch bf wf vf now) ∧
    (runProgram inputSelectUsername fetchEmpty (fun _ => none) (fun _ => none)
        (fun _ => false) "T").map (fun recs => recs.map recordFields)
      = .ok [[ "username", "fullName", "bio", "profileImage", "followers", "following",
          "postsCount", "website", "isVerified", "scrapedAt", "profileUrl"]] ∧
    inputSelectUsername.outputFormat = some ["username"] ∧
    "bio" ∉ ["username"] := by
  refine ⟨fun input x y fetch bf wf vf now => rfl, by rfl, rfl, by decide⟩

/-- An input asking for `maxConcurrency: 1` (the schema default). -/
def inputConcurrencyOne : ActorInput :=
  { profileUrls := [.str "https://www.instagram.com/natgeo"], maxRetries := 3,
    includeRecentPosts := false, maxPostsToScrape := 12,
    maxConcurrency := some 1, outputFormat := none }

/-- C6, code bug: the `CheerioCrawler` is constructed with the literal
`maxConcurrency: 2` (src/main.js line 76); the input's `maxConcurrency`
(INPUT_SCHEMA default 1, described as "MUST be 1 for Instagram") is
never read, so a run requesting 1 still gets a crawler configured for
2. -/
theorem c6_maxConcurrency_hardcoded :
    (∀ input : ActorInput, (crawlerConfig input).maxConcurrency = 2) ∧
    inputConcurrencyOne.maxConcurrency = some 1 ∧
    (crawlerConfig inputConcurrencyOne).maxConcurrency = 2 :=
  ⟨fun _ => rfl, rfl, rfl⟩

/-- An entry the request-preparation map throws on: not a string and
without a truthy `.url`, or with a URL lacking the `instagram.com/`
substring. -/
def invalidEntry : UrlInput → Bool
  | .str s => ¬jsIncludes s "instagram.com/"
  | .obj none => true
  | .obj (some v) => v = "" ∨ ¬jsIncludes v "instagram.com/"

theorem makeRequest_invalid (u : UrlInput) (h : invalidEntry u = true) :
    ∃ e, makeRequest u = .error e := by
  cases u with
  | str s =>
    simp [invalidEntry] at h
    exact ⟨"Not an Instagram URL: " ++ s, by simp [makeRequest, h]⟩
  | obj v =>
    cases v with
    | none => exact ⟨"Invalid URL format", rfl⟩
    | some w =>
      simp [invalidEntry] at h
      by_cases hw : w = ""
      · exact ⟨"Invalid URL format", by simp [makeRequest, hw]⟩
      · have hinc : jsIncludes w "instagram.com/" = false := by
          rcases h with h | h
          · exact absurd h hw
          · exact h
        exact ⟨"Not an Instagram URL: " ++ w, by simp [makeRequest, hw, hinc]⟩

theorem buildRequests_error {l : List UrlInput} {u : UrlInput}
    (hu : u ∈ l) (h : invalidEntry u = true) : ∃ e, buildRequests l = .error e := by
  induction l with
  | nil => cases hu
  | cons a rest ih =>
    unfold buildRequests
    match ha : makeRequest a with
    | .error e => exact ⟨e, rfl⟩
    | .ok r =>
      rcases List.mem_cons.mp hu with rfl | hmem
      · obtain ⟨e, he⟩ := makeRequest_invalid u h
        rw [ha] at he
        cases he
      · obtain ⟨e, he⟩ := ih hmem
        rw [he]
        exact ⟨e, rfl⟩

/-- C9: input validation is all-or-nothing and precedes the crawl: with
an empty `profileUrls`, or any entry without a usable string URL, or any
entry whose URL lacks the substring `instagram.com/`, the program throws
(`Except.error`) before the crawler runs, so the run produces no dataset
records — not even for the valid entries. -/
theorem c9_validation_before_crawl (input : ActorInput) (fetch : String → Page)
    (bf wf : Page → Option String) (vf : Page → Bool) (now : String)
    (h : input.profileUrls = [] ∨ ∃ u ∈ input.profileUrls, invalidEntry u = true) :
    ∃ e, runProgram input fetch bf wf vf now = .error e := by
  unfold runProgram
  rcases h with h | ⟨u, hu, hinv⟩
  · exact ⟨noUrlsErrorMsg, by simp [h]⟩
  · by_cases he : input.profileUrls.isEmpty = true
    · exact ⟨noUrlsErrorMsg, by simp [he]⟩
    · obtain ⟨e, hb⟩ := buildRequests_error hu hinv
      refine ⟨e, ?_⟩
      simp [he, hb]

/-- An input mixing one valid Instagram URL with one non-Instagram
URL. -/
def inputMixed : ActorInput :=
  { profileUrls := [.str "https://www.instagram.com/natgeo",
      .str "https://example.com/natgeo"],
    maxRetries := 3, includeRecentPosts := false, maxPostsToScrape := 12,
    maxConcurrency := none, outputFormat := none }

theorem c9_validation_before_crawl_witness :
    (inputMixed.profileUrls = [] ∨ ∃ u ∈ inputMixed.profileUrls, invalidEntry u = true) ∧
    (∃ e, runProgram inputMixed fetchEmpty (fun _ => none) (fun _ => none)
      (fun _ => false) "T" = .error e) :=
  ⟨Or.inr ⟨.str "https://example.com/natgeo", by decide, by decide⟩,
    c9_validation_before_crawl inputMixed fetchEmpty (fun _ => none) (fun _ => none)
      (fun _ => false) "T"
      (Or.inr ⟨.str "https://example.com/natgeo", by decide, by decide⟩)⟩

theorem collectPosts_length (maxP : Nat) (l : List Anchor) (cnt : Nat) :
    (collectPosts maxP l cnt).length ≤ maxP - cnt := by
  induction l generalizing cnt with
  | nil => simp [collectPosts]
  | cons a rest ih =>
    unfold collectPosts
    by_cases hb : maxP ≤ cnt
    · simp [hb]
    · simp only [if_neg hb]
      match a.href, a.firstImg with
      | some href, some img =>
        by_cases hh : href = ""
        · simp [hh]
          exact ih cnt
        · simp [hh]
          have := ih (cnt + 1)
          omega
      | some _, none => exact ih cnt
      | none, _ => exact ih cnt

theorem collectPosts_mem (maxP : Nat) (l : List Anchor) (cnt : Nat) (p : Post)
    (hp : p ∈ collectPosts maxP l cnt) :
    ∃ a ∈ l, ∃ href : String, ∃ img : Img, a.href = some href ∧ a.firstImg = some img ∧
      p.url = (if jsStartsWith href "http" then href
               else "https://www.instagram.com" ++ href) ∧
      p.imageUrl = img.src ∧ p.altText = img.alt.getD "" := by
  induction l generalizing cnt with
  | nil => simp [collectPosts] at hp
  | cons a rest ih =>
    unfold collectPosts at hp
    by_cases hb : maxP ≤ cnt
    · simp [hb] at hp
    · simp only [if_neg hb] at hp
      match ha : a.href, hi : a.firstImg with
      | some href, some img =>
        rw [ha, hi] at hp
        by_cases hh : href = ""
        · simp [hh] at hp
          obtain ⟨b, hb1, rest1⟩ := ih cnt hp
          exact ⟨b, List.mem_cons_of_mem a hb1, rest1⟩
        · simp [hh] at hp
          rcases hp with rfl | hp
          · exact ⟨a, List.mem_cons_self a rest, href, img, ha, hi, rfl, rfl, rfl⟩
          · obtain ⟨b, hb1, rest1⟩ := ih (cnt + 1) hp
            exact ⟨b, List.mem_cons_of_mem a hb1, rest1⟩
      | some href, none =>
        rw [ha, hi] at hp
        obtain ⟨b, hb1, rest1⟩ := ih cnt hp
        exact ⟨b, List.mem_cons_of_mem a hb1, rest1⟩
      | none, _ =>
        rw [ha] at hp
        obtain ⟨b, hb1, rest1⟩ := ih cnt hp
        exact ⟨b, List.mem_cons_of_mem a hb1, rest1⟩

/-- C10: `extractRecentPosts` returns at most `maxPosts` posts; every
returned post comes from a selected anchor with a truthy `href` and an
`img`, its `url` is the `href` when that starts with `http` and
otherwise `https://www.instagram.com` prefixed to it, and its `altText`
is the img's `alt` with the `|| ''` fallback (hence a string, never
null); and the `recentPosts` field is attached to the success record
exactly when `includeRecentPosts` is enabled. -/
theorem c10_recent_posts (anchors : List Anchor) (maxPosts : Nat) (ipl : Bool) (mp : Nat)
    (bf wf : Page → Option String) (vf : Page → Bool) (now url : String) (page : Page) :
    (extractRecentPosts anchors maxPosts).length ≤ maxPosts ∧
    (∀ p ∈ extractRecentPosts anchors maxPosts,
      ∃ a ∈ anchors.filter postSelector, ∃ href : String, ∃ img : Img,
        a.href = some href ∧ a.firstImg = some img ∧
        p.url = (if jsStartsWith href "http" then href
                 else "https://www.instagram.com" ++ href) ∧
        p.imageUrl = img.src ∧ p.altText = img.alt.getD "") ∧
    (∀ r : SuccessRecord, requestHandler ipl mp bf wf vf now url page = [.success r] →
      r.recentPosts = (if ipl then some (extractRecentPosts page.anchors mp) else none)) := by
  refine ⟨?_, ?_, ?_⟩
  · have := collectPosts_length maxPosts (anchors.filter postSelector) 0
    unfold extractRecentPosts
    omega
  · intro p hp
    exact collectPosts_mem maxPosts (anchors.filter postSelector) 0 p hp
  · intro r hr
    unfold requestHandler at hr
    by_cases h1 : loginRedirectCheck page = true
    · simp [h1] at hr
    · by_cases h2 : notFoundCheck page = true
      · simp [h1, h2] at hr
      · simp [h1, h2] at hr
        rw [← hr]

/-- The image of the qualifying post anchor below. -/
def imgOne : Img := { src := some "https://img.example/1.jpg", alt := some "photo" }

/-- An anchor list holding one qualifying post link and one
non-qualifying link. -/
def anchorsTwo : List Anchor :=
  [{ href := some "/p/abc/", firstImg := some imgOne },
   { href := some "/about", firstImg := some { src := none, alt := none } }]

/-- A page carrying the two-anchor list. -/
def pageAnchors : Page := { emptyPage with anchors := anchorsTwo }

/-- The profile data extracted from `pageAnchors` (the URL fallback
supplies the username; everything else stays null). -/
def profileNatgeo : ProfileData :=
  { username := some "natgeo", fullName := none, bio := none,
    profileImage := none, followers := none, following := none, postsCount := none,
    website := none, isVerified := false }

/-- The single post extracted from `anchorsTwo`. -/
def postOne : Post :=
  { url := "https://www.instagram.com/p/abc/",
    imageUrl := some "https://img.example/1.jpg", altText := "photo" }

/-- The success record the handler emits for `pageAnchors` with
`includeRecentPosts` enabled. -/
def recAnchors : SuccessRecord :=
  { profile := profileNatgeo, recentPosts := some [postOne],
    scrapedAt := "T", profileUrl := "https://www.instagram.com/natgeo" }

theorem c10_recent_posts_witness :
    (extractRecentPosts anchorsTwo 12).length ≤ 12 ∧
    requestHandler true 12 (fun _ => none) (fun _ => none) (fun _ => false) "T"
        "https://www.instagram.com/natgeo" pageAnchors = [.success recAnchors] ∧
    recAnchors.recentPosts = some (extractRecentPosts pageAnchors.anchors 12) ∧
    extractRecentPosts anchorsTwo 12 = [postOne] :=
  ⟨(c10_recent_posts anchorsTwo 12 true 12 (fun _ => none) (fun _ => none) (fun _ => false)
      "T" "https://www.instagram.com/natgeo" pageAnchors).1,
    by rfl,
    (c10_recent_posts anchorsTwo 12 true 12 (fun _ => none) (fun _ => none) (fun _ => false)
      "T" "https://www.instagram.com/natgeo" pageAnchors).2.2 recAnchors (by rfl),
    by decide⟩

theorem digit_not_ws {c : Char} (h : c.isDigit = true) : c.isWhitespace = false := by
  cases hw : c.isWhitespace
  · rfl
  · exfalso
    simp only [Char.isWhitespace, Bool.or_eq_true, decide_eq_true_eq] at hw
    rcases hw with ((h1 | h1) | h1) | h1 <;> subst h1 <;> simp [Char.isDigit] at h

theorem digit_ne_comma {c : Char} (h : c.isDigit = true) : c ≠ ',' := by
  intro hc
  subst hc
  simp [Char.isDigit] at h

theorem digit_toLower {c : Char} (h : c.isDigit = true) : c.toLower = c := by
  simp only [Char.isDigit, Bool.and_eq_true, decide_eq_true_eq, ge_iff_le,
    UInt32.le_def, BitVec.le_def] at h
  obtain ⟨hl, hr⟩ := h
  unfold Char.toLower
  rw [if_neg]
  intro hcond
  obtain ⟨h65, _⟩ := hcond
  simp only [Char.toNat, UInt32.toNat] at h65
  norm_num at hl hr
  omega

theorem takeWhile_head {p : Char → Bool} {l : List Char} {x : Char} {t : List Char}
    (h : l.takeWhile p = x :: t) : p x = true := by
  cases l with
  | nil => cases h
  | cons a r =>
    rw [List.takeWhile_cons] at h
    by_cases hp : p a = true
    · rw [if_pos hp] at h
      cases h
      exact hp
    · rw [if_neg hp] at h
      cases h

theorem cleanCountStr_head {s : String} {c : Char} {t : List Char}
    (hs : s.toList = c :: t) (hc : c.isDigit = true) :
    ∃ r, cleanCountStr s = c :: r := by
  unfold cleanCountStr
  rw [hs]
  have hkeep : ¬(c = ',' ∨ c.isWhitespace = true) := by
    rintro (h1 | h1)
    · exact digit_ne_comma hc h1
    · rw [digit_not_ws hc] at h1
      cases h1
  simp only [List.filter_cons, decide_eq_true_eq]
  rw [if_pos]
  · rw [List.map_cons, digit_toLower hc]
    exact ⟨_, rfl⟩
  · simpa using hkeep

theorem jsParseFloatChars_digit {c : Char} {t : List Char} (hc : c.isDigit = true) :
    jsParseFloatChars (c :: t) ≠ none := by
  have hip : (c :: t).takeWhile Char.isDigit = c :: t.takeWhile Char.isDigit := by
    rw [List.takeWhile_cons, if_pos hc]
  unfold jsParseFloatChars
  dsimp only
  rw [hip]
  split
  · intro hcontra
    rw [if_neg] at hcontra
    · cases hcontra
    · rintro ⟨h1, _⟩
      cases h1
  · intro hcontra
    rw [if_neg] at hcontra
    · cases hcontra
    · intro h1
      cases h1

theorem parseIntOrNull_ne_nan (cs : List Char) : parseIntOrNull cs ≠ some .nan := by
  unfold parseIntOrNull
  split <;> simp

theorem parseIntStat_ne_nan (x : Option String) : parseIntStat x ≠ some .nan := by
  unfold parseIntStat
  cases x with
  | none => simp
  | some s => exact parseIntOrNull_ne_nan s.toList

theorem dropLast_head {c : Char} {t : List Char} (h : (c :: t).dropLast ≠ []) :
    ∃ r, (c :: t).dropLast = c :: r := by
  cases t with
  | nil => simp at h
  | cons a r => exact ⟨(a :: r).dropLast, by simp⟩

theorem matchCountRegex_body_head {c : Char} {t body : List Char} {suf : Option Char}
    (hc : c.isDigit = true)
    (h : matchCountRegex (c :: t) = some (body, suf)) :
    ∃ r, body = c :: r := by
  unfold matchCountRegex at h
  match hlast : (c :: t).getLast? with
  | none => simp [hlast] at h
  | some x =>
    rw [hlast] at h
    dsimp only at h
    by_cases hx : x = 'k' ∨ x = 'm' ∨ x = 'b'
    · rw [if_pos hx] at h
      by_cases hbody : (c :: t).dropLast ≠ [] ∧
          ((c :: t).dropLast.all (fun d => d.isDigit ∨ d = '.'))
      · rw [if_pos (by simpa using hbody)] at h
        obtain ⟨rfl, rfl⟩ : body = (c :: t).dropLast ∧ suf = some x := by
          cases h
          exact ⟨rfl, rfl⟩
        exact dropLast_head hbody.1
      · rw [if_neg (by simpa using hbody)] at h
        cases h
    · rw [if_neg hx] at h
      by_cases hall : (c :: t).all (fun d => d.isDigit ∨ d = '.')
      · rw [if_pos (by simpa using hall)] at h
        obtain ⟨rfl, rfl⟩ : body = c :: t ∧ suf = none := by
          cases h
          exact ⟨rfl, rfl⟩
        exact ⟨t, rfl⟩
      · rw [if_neg (by simpa using hall)] at h
        cases h

theorem parseInstagramCount_digit_ne_nan {s : String} {c : Char} {t : List Char}
    (hs : s.toList = c :: t) (hc : c.isDigit = true) :
    parseInstagramCount s ≠ some .nan := by
  have hne : s ≠ "" := by
    intro hempty
    rw [hempty] at hs
    cases hs
  obtain ⟨r, hclean⟩ := cleanCountStr_head hs hc
  unfold parseInstagramCount
  rw [if_neg hne]
  dsimp only
  rw [hclean]
  match hm : matchCountRegex (c :: r) with
  | none =>
    dsimp only
    exact parseIntOrNull_ne_nan _
  | some (numberStr, multiplier) =>
    dsimp only
    obtain ⟨r2, hbody⟩ := matchCountRegex_body_head hc hm
    subst hbody
    match hf : jsParseFloatChars (c :: r2) with
    | none => exact absurd hf (jsParseFloatChars_digit hc)
    | some number =>
      dsimp only
      split <;> simp

theorem matchNum_capture_digit {isSep : Char → Bool} {cs cap r : List Char}
    (h : matchNum isSep cs = some (cap, r)) :
    ∃ c t, cap = c :: t ∧ c.isDigit = true := by
  unfold matchNum at h
  by_cases hd : cs.takeWhile Char.isDigit = []
  · rw [if_pos hd] at h
    cases h
  · rw [if_neg hd] at h
    dsimp only at h
    match hdl : cs.takeWhile Char.isDigit with
    | [] => exact absurd hdl hd
    | x :: xs =>
      have hx : x.isDigit = true := takeWhile_head hdl
      rw [hdl] at h
      match hpr : (numGroupsAux isSep (cs.dropWhile Char.isDigit).length
          (cs.dropWhile Char.isDigit)).2 with
      | [] =>
        rw [hpr] at h
        dsimp only at h
        cases h
        exact ⟨x, xs ++ (numGroupsAux isSep (cs.dropWhile Char.isDigit).length
          (cs.dropWhile Char.isDigit)).1, by simp, hx⟩
      | c2 :: rest =>
        rw [hpr] at h
        dsimp only at h
        by_cases hk : isKMB c2 = true
        · rw [if_pos hk] at h
          cases h
          exact ⟨x, xs ++ (numGroupsAux isSep (cs.dropWhile Char.isDigit).length
            (cs.dropWhile Char.isDigit)).1 ++ [c2], by simp, hx⟩
        · rw [if_neg hk] at h
          cases h
          exact ⟨x, xs ++ (numGroupsAux isSep (cs.dropWhile Char.isDigit).length
            (cs.dropWhile Char.isDigit)).1, by simp, hx⟩

theorem scanNumWord_capture_digit {word cs cap : List Char}
    (h : scanNumWord word cs = some cap) :
    ∃ c t, cap = c :: t ∧ c.isDigit = true := by
  induction cs with
  | nil => cases h
  | cons a rest ih =>
    unfold scanNumWord at h
    match hm : matchNum sepCommaDot (a :: rest) with
    | some (cap2, r) =>
      rw [hm] at h
      dsimp only at h
      match hw : matchWordCI word (skipWs r) with
      | some r2 =>
        rw [hw] at h
        cases h
        exact matchNum_capture_digit hm
      | none =>
        rw [hw] at h
        exact ih h
    | none =>
      rw [hm] at h
      exact ih h

theorem scanWordNum_capture_digit {word : List Char} {withS : Bool} {cs cap : List Char}
    (h : scanWordNum word withS cs = some cap) :
    ∃ c t, cap = c :: t ∧ c.isDigit = true := by
  induction cs with
  | nil => cases h
  | cons a rest ih =>
    unfold scanWordNum at h
    match hw : matchWordCI word (a :: rest) with
    | some r =>
      rw [hw] at h
      dsimp only at h
      match hm : matchNum sepCommaDot (skipWs (if withS then eatOptS r else r)) with
      | some (cap2, r2) =>
        rw [hm] at h
        cases h
        exact matchNum_capture_digit hm
      | none =>
        rw [hm] at h
        exact ih h
    | none =>
      rw [hw] at h
      exact ih h


theorem matchStatsTripleAt_digits {cs c1 c2 c3 r : List Char}
    (h : matchStatsTripleAt cs = some (c1, c2, c3, r)) :
    (∃ c t, c1 = c :: t ∧ c.isDigit = true) ∧
    (∃ c t, c2 = c :: t ∧ c.isDigit = true) ∧
    (∃ c t, c3 = c :: t ∧ c.isDigit = true) := by
  unfold matchStatsTripleAt at h
  repeat' split at h
  all_goals try cases h
  rename_i hn1 hn2 hn3
  exact ⟨matchNum_capture_digit hn1, matchNum_capture_digit hn2, matchNum_capture_digit hn3⟩

theorem scanStatsA_digits {cs c1 c2 c3 : List Char}
    (h : scanStatsA cs = some (c1, c2, c3)) :
    (∃ c t, c1 = c :: t ∧ c.isDigit = true) ∧
    (∃ c t, c2 = c :: t ∧ c.isDigit = true) ∧
    (∃ c t, c3 = c :: t ∧ c.isDigit = true) := by
  induction cs with
  | nil => cases h
  | cons a rest ih =>
    unfold scanStatsA at h
    match hm : matchStatsTripleAt (a :: rest) with
    | some (b1, b2, b3, r) =>
      rw [hm] at h
      dsimp only at h
      by_cases hd : dashBioTail r = true
      · rw [if_pos hd] at h
        cases h
        exact matchStatsTripleAt_digits hm
      · rw [if_neg hd] at h
        exact ih h
    | none =>
      rw [hm] at h
      exact ih h

theorem scanStatsB_digits {cs c1 c2 c3 : List Char}
    (h : scanStatsB cs = some (c1, c2, c3)) :
    (∃ c t, c1 = c :: t ∧ c.isDigit = true) ∧
    (∃ c t, c2 = c :: t ∧ c.isDigit = true) ∧
    (∃ c t, c3 = c :: t ∧ c.isDigit = true) := by
  induction cs with
  | nil => cases h
  | cons a rest ih =>
    unfold scanStatsB at h
    match hm : matchStatsTripleAt (a :: rest) with
    | some (b1, b2, b3, r) =>
      rw [hm] at h
      dsimp only at h
      cases h
      exact matchStatsTripleAt_digits hm
    | none =>
      rw [hm] at h
      exact ih h

theorem ogDescriptionStats_digits {desc : String} {c1 c2 c3 : List Char}
    (h : ogDescriptionStats desc = some (c1, c2, c3)) :
    (∃ c t, c1 = c :: t ∧ c.isDigit = true) ∧
    (∃ c t, c2 = c :: t ∧ c.isDigit = true) ∧
    (∃ c t, c3 = c :: t ∧ c.isDigit = true) := by
  unfold ogDescriptionStats at h
  match ha : scanStatsA desc.toList with
  | some t =>
    rw [ha] at h
    cases h
    exact scanStatsA_digits ha
  | none =>
    rw [ha] at h
    exact scanStatsB_digits h

/-- The three counts of a data record are null or numbers, never NaN. -/
def noNanCounts (d : ProfileData) : Prop :=
  d.followers ≠ some .nan ∧ d.following ≠ some .nan ∧ d.postsCount ≠ some .nan

theorem captureParse_ne_nan {cap : List Char}
    (h : ∃ c t, cap = c :: t ∧ c.isDigit = true) :
    parseInstagramCount cap.asString ≠ some .nan := by
  obtain ⟨c, t, rfl, hc⟩ := h
  exact parseInstagramCount_digit_ne_nan (s := (c :: t).asString) rfl hc

theorem jsOrCount_ne_nan (a : Option JsCount) {b : Option JsCount}
    (hb : b ≠ some .nan) : jsOrCount a b ≠ some .nan := by
  unfold jsOrCount
  split
  · rename_i ht
    match a, ht with
    | some (.num n), _ => simp
  · exact hb

theorem strategy0_noNan (su : Option SharedUser) (d : ProfileData)
    (h : noNanCounts d) : noNanCounts (strategy0 su d) := by
  cases su with
  | none => exact h
  | some u =>
    refine ⟨?_, ?_, ?_⟩
    · cases hx : u.edge_followed_by_count with
      | none => simpa [strategy0, hx] using h.1
      | some n => simp [strategy0, hx]
    · cases hx : u.edge_follow_count with
      | none => simpa [strategy0, hx] using h.2.1
      | some n => simp [strategy0, hx]
    · cases hx : u.edge_owner_to_timeline_media_count with
      | none => simpa [strategy0, hx] using h.2.2
      | some n => simp [strategy0, hx]

theorem foldStats_ne_nan (stats : List JsonLdStat) (a : Option JsCount)
    (ha : a ≠ some .nan) :
    stats.foldl
      (fun acc st =>
        if st.isFollowAction then jsOrCount acc (parseIntStat st.userInteractionCount)
        else acc) a ≠ some .nan := by
  induction stats generalizing a with
  | nil => exact ha
  | cons st rest ih =>
    simp only [List.foldl_cons]
    apply ih
    split
    · exact jsOrCount_ne_nan a (parseIntStat_ne_nan st.userInteractionCount)
    · exact ha

theorem strategy1_noNan (j : Option JsonLdPerson) (url : String) (d : ProfileData)
    (h : noNanCounts d) : noNanCounts (strategy1 j url d) := by
  cases j with
  | none => exact h
  | some p =>
    refine ⟨?_, h.2.1, h.2.2⟩
    show (match p.interactionStatistic with
      | none => d.followers
      | some stats =>
        stats.foldl
          (fun acc st =>
            if st.isFollowAction then jsOrCount acc (parseIntStat st.userInteractionCount)
            else acc) d.followers) ≠ some .nan
    cases p.interactionStatistic with
    | none => exact h.1
    | some stats => exact foldStats_ne_nan stats d.followers h.1

theorem strategy2_noNan (t i : Option String) (url : String) (d : ProfileData)
    (h : noNanCounts d) : noNanCounts (strategy2 t i url d) := by
  obtain ⟨h1, h2, h3⟩ := strategy2_counts t i url d
  exact ⟨by rw [h1]; exact h.1, by rw [h2]; exact h.2.1, by rw [h3]; exact h.2.2⟩

theorem strategy3_noNan (og : Option String) (d : ProfileData)
    (h : noNanCounts d) : noNanCounts (strategy3 og d) := by
  unfold strategy3
  by_cases ht : jsTruthyStr og = true
  · rw [if_pos ht]
    match hm : ogDescriptionStats (og.getD "") with
    | none => exact h
    | some (m1, m2, m3) =>
      obtain ⟨d1, d2, d3⟩ := ogDescriptionStats_digits hm
      exact ⟨jsOrCount_ne_nan _ (captureParse_ne_nan d1),
        jsOrCount_ne_nan _ (captureParse_ne_nan d2),
        jsOrCount_ne_nan _ (captureParse_ne_nan d3)⟩
  · rw [if_neg ht]
    exact h

theorem strategy4_noNan (bt : String) (d : ProfileData)
    (h : noNanCounts d) : noNanCounts (strategy4 bt d) := by
  unfold strategy4
  split
  · refine ⟨?_, ?_, ?_⟩
    · dsimp only
      split
      · split
        · rename_i cap heq
          exact captureParse_ne_nan (scanNumWord_capture_digit heq)
        · split
          · rename_i cap heq
            exact captureParse_ne_nan (scanWordNum_capture_digit heq)
          · exact h.1
      · exact h.1
    · dsimp only
      split
      · split
        · rename_i cap heq
          exact captureParse_ne_nan (scanNumWord_capture_digit heq)
        · split
          · rename_i cap heq
            exact captureParse_ne_nan (scanWordNum_capture_digit heq)
          · exact h.2.1
      · exact h.2.1
    · dsimp only
      split
      · split
        · rename_i cap heq
          exact captureParse_ne_nan (scanNumWord_capture_digit heq)
        · split
          · rename_i cap heq
            exact captureParse_ne_nan (scanWordNum_capture_digit heq)
          · exact h.2.2
      · exact h.2.2
  · exact h

theorem normalize_noNan (d : ProfileData) (h : noNanCounts d) :
    noNanCounts (normalizeZeroCounts d) := by
  unfold normalizeZeroCounts
  refine ⟨?_, ?_, ?_⟩ <;> dsimp only <;> split
  · simp
  · exact h.1
  · simp
  · exact h.2.1
  · simp
  · exact h.2.2

theorem extract_noNan (page : Page) (url : String) :
    noNanCounts (extractProfileData page url) := by
  unfold extractProfileData extractStrategies
  apply normalize_noNan
  apply strategy4_noNan
  apply strategy3_noNan
  apply strategy2_noNan
  apply strategy1_noNan
  apply strategy0_noNan
  exact ⟨by simp [initialData], by simp [initialData], by simp [initialData]⟩

/-- C4: in every emitted success record the three count fields are
null or an integer, never NaN — covering the `Math.round(parseFloat(..))`
and `parseInt(..)` paths of `parseInstagramCount` (whose regex captures
always start with a digit) and the typed `window._sharedData` counts.
The remaining typing facts of the claim (textual fields are null or a
string, `isVerified` is a boolean) hold by the construction of
`ProfileData`, whose fields are `Option String` and `Bool`. -/
theorem c4_counts_never_nan (ipl : Bool) (mp : Nat)
    (bf wf : Page → Option String) (vf : Page → Bool)
    (now url : String) (page : Page) (r : SuccessRecord)
    (h : requestHandler ipl mp bf wf vf now url page = [.success r]) :
    r.profile.followers ≠ some .nan ∧ r.profile.following ≠ some .nan ∧
    r.profile.postsCount ≠ some .nan := by
  unfold requestHandler at h
  by_cases h1 : loginRedirectCheck page = true
  · simp [h1] at h
  · by_cases h2 : notFoundCheck page = true
    · simp [h1, h2] at h
    · simp only [if_neg h1, if_neg h2] at h
      injection h with hhead _
      injection hhead with hr
      subst hr
      dsimp only
      have hcounts := extract_noNan page url
      refine ⟨?_, ?_, ?_⟩
      · repeat' split
        all_goals exact hcounts.1
      · repeat' split
        all_goals exact hcounts.2.1
      · repeat' split
        all_goals exact hcounts.2.2

/-- The success record the handler emits for `emptyPage` with the
default options. -/
def recEmpty : SuccessRecord :=
  { profile := profileNatgeo, recentPosts := none,
    scrapedAt := "T", profileUrl := "https://www.instagram.com/natgeo" }

theorem c4_counts_never_nan_witness :
    requestHandler false 12 (fun _ => none) (fun _ => none) (fun _ => false) "T"
        "https://www.instagram.com/natgeo" emptyPage = [.success recEmpty] ∧
    recEmpty.profile.followers ≠ some .nan :=
  ⟨by rfl,
    (c4_counts_never_nan false 12 (fun _ => none) (fun _ => none) (fun _ => false)
      "T" "https://www.instagram.com/natgeo" emptyPage recEmpty (by rfl)).1⟩
